import Mathlib

/-!
Verification development for the session-continuity layer of
`claude_code_session_client`: a shallow embedding of
`_internal/session_storage.py` (SessionData serialization and
SimpleSessionPersistence) and `session_client.py`
(SessionPersistentClient reconciliation), with theorems about the
persistence and reconciliation protocol.

Modelling conventions:
- JSON values are the inductive `JVal`; a Python `None` is `JVal.null`.
- `datetime` values are abstract tick counts (`Nat`); `datetime.now()`
  reads an injected clock stream `clock : Nat → Nat` at a cursor that
  advances by one per call (each call to `now()` in the source is one
  read).  `isoformat`/`fromisoformat` are modelled as an injective
  decimal codec with `ValueError` on a malformed string and `TypeError`
  on a non-string, mirroring the stdlib behaviour used by the source.
- Python exceptions are the inductive `PyErr`; fallible code returns
  `Except PyErr _`.  `load_session` catches exactly
  `(json.JSONDecodeError, KeyError, ValueError)` as in the source.
- The file store is an association list keyed by session id (one file
  per session); file contents are either parsed JSON or malformed text.
-/

set_option autoImplicit false

/-- JSON values as produced by `json.load` / consumed by `json.dump`.
Numbers are modelled as integers (the codec round-trips numbers
exactly, so the numeric carrier does not matter for any claim). -/
inductive JVal where
  | null
  | bool (b : Bool)
  | num (n : Int)
  | str (s : String)
  | arr (xs : List JVal)
  | obj (kvs : List (String × JVal))

/-- Python exceptions distinguished by the embedded code. -/
inductive PyErr where
  | jsonDecodeError
  | keyError
  | valueError
  | typeError
  | attributeError
  | osError
deriving DecidableEq

/-- Content blocks of an assistant message (`TextBlock`,
`ToolUseBlock`, `ToolResultBlock` from the SDK taxonomy).  Payload
fields are raw JSON values; a Python `None` is `JVal.null`. -/
inductive ContentBlock where
  | textBlock (text : JVal)
  | toolUseBlock (id : JVal) (name : JVal) (input : JVal)
  | toolResultBlock (tool_use_id : JVal) (content : JVal) (is_error : JVal)

/-- The closed message taxonomy (`UserMessage`, `AssistantMessage`,
`SystemMessage`, `ResultMessage`).  `session_id` of a result message is
a string because the reconciler compares it against the current id. -/
inductive Message where
  | userMessage (content : JVal)
  | assistantMessage (content : List ContentBlock)
  | systemMessage (subtype : JVal) (data : JVal)
  | resultMessage (subtype : JVal) (duration_ms : JVal) (duration_api_ms : JVal)
      (is_error : JVal) (num_turns : JVal) (session_id : String)
      (total_cost_usd : JVal) (usage : JVal) (result : JVal)

/-- Options snapshot (`ClaudeCodeOptions`): the three serialized fields
plus the `resume` flag mutated by `start_or_resume_session`. -/
structure ClaudeCodeOptions where
  model : JVal := JVal.null
  allowed_tools : JVal := JVal.arr []
  permission_mode : JVal := JVal.null
  resume : Option String := none

/-- A fresh `ClaudeCodeOptions()` with all defaults. -/
def ClaudeCodeOptions.mkDefault : ClaudeCodeOptions := {}

/-- The persisted unit (`SessionData` dataclass). -/
structure SessionData where
  session_id : String
  start_time : Nat
  last_activity : Nat
  conversation_history : List Message := []
  working_directory : String := ""
  options : Option ClaudeCodeOptions := none

/-- Python dict lookup on a JSON object (first matching key). -/
def jlookup (kvs : List (String × JVal)) (k : String) : Option JVal :=
  match kvs with
  | [] => none
  | (k', v) :: rest => if k' = k then some v else jlookup rest k

/-- Python `d.get(k, dflt)`. -/
def jget (kvs : List (String × JVal)) (k : String) (dflt : JVal) : JVal :=
  (jlookup kvs k).getD dflt

/-- Coerce a JSON value to the string it carries (used where the
source stores a value into a `str`-typed field without checking). -/
def asStr : JVal → String
  | .str s => s
  | _ => ""

/-- Python truthiness of a JSON value. -/
def pyTruthy : JVal → Bool
  | .null => false
  | .bool b => b
  | .num n => n != 0
  | .str s => s != ""
  | .arr xs => !xs.isEmpty
  | .obj kvs => !kvs.isEmpty

/-- Python `for x in v`: lists iterate elements, dicts iterate keys,
strings iterate characters, everything else raises `TypeError`. -/
def pyIter : JVal → Except PyErr (List JVal)
  | .arr xs => .ok xs
  | .obj kvs => .ok (kvs.map fun p => JVal.str p.1)
  | .str s => .ok (s.data.map fun c => JVal.str (String.mk [c]))
  | _ => .error .typeError

/-- Decimal digit to character. -/
def digitChar (d : Nat) : Char := Char.ofNat (48 + d)

/-- Character to decimal digit, `none` for a non-digit. -/
def charDigit (c : Char) : Option Nat :=
  if 48 ≤ c.toNat ∧ c.toNat ≤ 57 then some (c.toNat - 48) else none

/-- Structurally recursive digit-list parse (most significant first in
the input; `none` as soon as a non-digit appears). -/
def mapDigits : List Char → Option (List Nat)
  | [] => some []
  | c :: cs =>
    match charDigit c, mapDigits cs with
    | some d, some ds => some (d :: ds)
    | _, _ => none

/-- Model of `datetime.isoformat()`: an injective textual rendering of
the abstract tick count (decimal, most significant digit first). -/
def isoformat (t : Nat) : String :=
  if t = 0 then "0" else String.mk (((Nat.digits 10 t).map digitChar).reverse)

/-- Parse a decimal string; `none` on the empty string or a non-digit. -/
def parseTime (s : String) : Option Nat :=
  match mapDigits s.data with
  | some ds => if ds.isEmpty then none else some (Nat.ofDigits 10 ds.reverse)
  | none => none

/-- Model of `datetime.fromisoformat`: `ValueError` on a malformed
string, `TypeError` on a non-string argument. -/
def fromisoformat (v : JVal) : Except PyErr Nat :=
  match v with
  | .str s =>
    match parseTime s with
    | some t => .ok t
    | none => .error .valueError
  | _ => .error .typeError

/-- Serialization of one content block (source `to_dict`, lines 53-64).
The source writes the keys `type, text, id, name, input, tool_use_id,
is_error` via `getattr(block, _, None)`; it writes no `content` key, so
a tool-result block's `content` field is not serialized. -/
def serializeBlock : ContentBlock → JVal
  | .textBlock t =>
    .obj [("type", .str "TextBlock"), ("text", t), ("id", .null), ("name", .null),
          ("input", .null), ("tool_use_id", .null), ("is_error", .null)]
  | .toolUseBlock i n inp =>
    .obj [("type", .str "ToolUseBlock"), ("text", .null), ("id", i), ("name", n),
          ("input", inp), ("tool_use_id", .null), ("is_error", .null)]
  | .toolResultBlock tu _c ie =>
    .obj [("type", .str "ToolResultBlock"), ("text", .null), ("id", .null), ("name", .null),
          ("input", .null), ("tool_use_id", tu), ("is_error", ie)]

/-- Serialization of one message with its discriminator tag
(`message_type` is the runtime class name in the source). -/
def serializeMessage : Message → JVal
  | .userMessage c =>
    .obj [("message_type", .str "UserMessage"), ("content", c)]
  | .assistantMessage bs =>
    .obj [("message_type", .str "AssistantMessage"),
          ("content", .arr (bs.map serializeBlock))]
  | .systemMessage st dt =>
    .obj [("message_type", .str "SystemMessage"), ("subtype", st), ("data", dt)]
  | .resultMessage st dm dam ie nt sid cost usage res =>
    .obj [("message_type", .str "ResultMessage"), ("subtype", st),
          ("duration_ms", dm), ("duration_api_ms", dam), ("is_error", ie),
          ("num_turns", nt), ("session_id", .str sid), ("total_cost_usd", cost),
          ("usage", usage), ("result", res)]

/-- Serialization of the options snapshot (`None` serializes as null). -/
def serializeOptions : Option ClaudeCodeOptions → JVal
  | none => .null
  | some o =>
    .obj [("model", o.model), ("allowed_tools", o.allowed_tools),
          ("permission_mode", o.permission_mode)]

/-- `SessionData.to_dict` (source lines 28-104). -/
def to_dict (d : SessionData) : JVal :=
  .obj [("session_id", .str d.session_id),
        ("start_time", .str (isoformat d.start_time)),
        ("last_activity", .str (isoformat d.last_activity)),
        ("conversation_history", .arr (d.conversation_history.map serializeMessage)),
        ("working_directory", .str d.working_directory),
        ("options", serializeOptions d.options)]

/-- Block-list reconstruction inside the `AssistantMessage` branch of
`from_dict` (source lines 129-149): dispatch on the `type` tag,
unknown block tags fall through (skipped), a non-dict entry raises
`AttributeError` at `block_data.get`. -/
def parseBlocks : List JVal → Except PyErr (List ContentBlock)
  | [] => .ok []
  | b :: bs =>
    match b with
    | .obj bm =>
      match jget bm "type" (.str "") with
      | .str "TextBlock" =>
        match parseBlocks bs with
        | .error e => .error e
        | .ok rest => .ok (.textBlock (jget bm "text" (.str "")) :: rest)
      | .str "ToolUseBlock" =>
        match parseBlocks bs with
        | .error e => .error e
        | .ok rest =>
          .ok (.toolUseBlock (jget bm "id" (.str "")) (jget bm "name" (.str ""))
                (jget bm "input" (.obj [])) :: rest)
      | .str "ToolResultBlock" =>
        match parseBlocks bs with
        | .error e => .error e
        | .ok rest =>
          .ok (.toolResultBlock (jget bm "tool_use_id" (.str ""))
                (jget bm "content" .null) (jget bm "is_error" .null) :: rest)
      | _ => parseBlocks bs
    | _ => .error .attributeError

/-- Reconstruction of one history entry (`from_dict` loop body, source
lines 121-168): dispatch on the `message_type` tag; an unknown tag is
skipped (`.ok none`); a missing `content` key of a user message raises
`KeyError` (the source indexes `msg_data["content"]`); a non-dict entry
raises `AttributeError`. -/
def parseMessage? (v : JVal) : Except PyErr (Option Message) :=
  match v with
  | .obj m =>
    match jget m "message_type" (.str "") with
    | .str "UserMessage" =>
      match jlookup m "content" with
      | some c => .ok (some (.userMessage c))
      | none => .error .keyError
    | .str "AssistantMessage" =>
      match pyIter (jget m "content" (.arr [])) with
      | .error e => .error e
      | .ok items =>
        match parseBlocks items with
        | .error e => .error e
        | .ok bs => .ok (some (.assistantMessage bs))
    | .str "SystemMessage" =>
      .ok (some (.systemMessage (jget m "subtype" (.str "")) (jget m "data" (.obj []))))
    | .str "ResultMessage" =>
      .ok (some (.resultMessage (jget m "subtype" (.str "")) (jget m "duration_ms" (.num 0))
            (jget m "duration_api_ms" (.num 0)) (jget m "is_error" (.bool false))
            (jget m "num_turns" (.num 0)) (asStr (jget m "session_id" (.str "")))
            (jget m "total_cost_usd" .null) (jget m "usage" .null) (jget m "result" .null)))
    | _ => .ok none
  | _ => .error .attributeError

/-- The `from_dict` history loop: errors abort, skipped entries are
dropped, reconstructed messages keep their order. -/
def parseHistory : List JVal → Except PyErr (List Message)
  | [] => .ok []
  | x :: xs =>
    match parseMessage? x with
    | .error e => .error e
    | .ok none => parseHistory xs
    | .ok (some msg) =>
      match parseHistory xs with
      | .error e => .error e
      | .ok rest => .ok (msg :: rest)

/-- Options reconstruction (`from_dict`, source lines 173-179):
`if data.get("options"):` is a truthiness test; `.get` on a truthy
non-dict raises `AttributeError`. -/
def parseOptionsVal (ov : JVal) : Except PyErr (Option ClaudeCodeOptions) :=
  if pyTruthy ov then
    match ov with
    | .obj okvs =>
      .ok (some { model := jget okvs "model" .null,
                  allowed_tools := jget okvs "allowed_tools" (.arr []),
                  permission_mode := jget okvs "permission_mode" .null,
                  resume := none })
    | _ => .error .attributeError
  else .ok none

/-- `SessionData.from_dict` (source lines 106-188).  The top-level
`data.get` raises `AttributeError` on a non-dict; `data["session_id"]`
and `data["start_time"]` / `data["last_activity"]` raise `KeyError`
when missing; timestamps go through `fromisoformat`. -/
def from_dict (data : JVal) : Except PyErr SessionData :=
  match data with
  | .obj kvs =>
    match pyIter (jget kvs "conversation_history" (.arr [])) with
    | .error e => .error e
    | .ok items =>
      match parseHistory items with
      | .error e => .error e
      | .ok hist =>
        match parseOptionsVal (jget kvs "options" .null) with
        | .error e => .error e
        | .ok opts =>
          match jlookup kvs "session_id" with
          | none => .error .keyError
          | some sidV =>
            match jlookup kvs "start_time" with
            | none => .error .keyError
            | some stV =>
              match fromisoformat stV with
              | .error e => .error e
              | .ok st =>
                match jlookup kvs "last_activity" with
                | none => .error .keyError
                | some laV =>
                  match fromisoformat laV with
                  | .error e => .error e
                  | .ok la =>
                    .ok { session_id := asStr sidV, start_time := st,
                          last_activity := la, conversation_history := hist,
                          working_directory := asStr (jget kvs "working_directory" (.str "")),
                          options := opts }
  | _ => .error .attributeError

/-- The normalization performed by one serialize/deserialize cycle on a
content block: the source's `to_dict` writes no `content` key for a
tool-result block, so `from_dict` reconstructs its `content` as null. -/
def normBlock : ContentBlock → ContentBlock
  | .toolResultBlock tu _ ie => .toolResultBlock tu .null ie
  | b => b

/-- Round-trip normalization of a message. -/
def normMessage : Message → Message
  | .assistantMessage bs => .assistantMessage (bs.map normBlock)
  | m => m

/-- Round-trip normalization of the options snapshot (`resume` is not
serialized and comes back as its default). -/
def normOptions (o : ClaudeCodeOptions) : ClaudeCodeOptions :=
  { model := o.model, allowed_tools := o.allowed_tools,
    permission_mode := o.permission_mode, resume := none }

/-- Round-trip normalization of a session record: identifiers,
timestamps, the directory, history length and message kinds survive;
tool-result contents and the resume flag do not. -/
def normSession (d : SessionData) : SessionData :=
  { d with conversation_history := d.conversation_history.map normMessage,
           options := d.options.map normOptions }

/-- The content of one backing file: either data that `json.load`
parses to a value, or malformed text that raises `JSONDecodeError`. -/
inductive FileContent where
  | json (v : JVal)
  | malformed

/-- The storage root: one independently addressable entry per session
id (the source keeps one `{session_id}.json` file per session, so keys
are unique in any state the file system can be in). -/
abbrev Store := List (String × FileContent)

/-- Directory lookup for the file named by a key. -/
def storeLookup (st : Store) (k : String) : Option FileContent :=
  match st with
  | [] => none
  | (k', c) :: rest => if k' = k then some c else storeLookup rest k

/-- Write/overwrite the file named by a key (`open("w")` truncates). -/
def storeInsert (st : Store) (k : String) (c : FileContent) : Store :=
  match st with
  | [] => [(k, c)]
  | (k', c') :: rest =>
    if k' = k then (k, c) :: rest else (k', c') :: storeInsert rest k c

/-- Remove the file named by a key (`Path.unlink`). -/
def storeErase (st : Store) (k : String) : Store :=
  match st with
  | [] => []
  | (k', c') :: rest => if k' = k then rest else (k', c') :: storeErase rest k

/-- Fault injection for the write path: which keys' file writes and
unlinks raise an `OSError` (disk full, permission denied, I/O fault). -/
structure Faults where
  saveFails : String → Bool
  deleteFails : String → Bool

/-- The fault-free world. -/
def noFaults : Faults := ⟨fun _ => false, fun _ => false⟩

/-- `SimpleSessionPersistence.save_session` (source lines 200-204):
serialize with `to_dict` and write the file under the record's own
`session_id`; a failing write raises. -/
def save_session (flt : Faults) (st : Store) (d : SessionData) : Except PyErr Store :=
  if flt.saveFails d.session_id then .error .osError
  else .ok (storeInsert st d.session_id (.json (to_dict d)))

/-- Exceptions caught by the `except (json.JSONDecodeError, KeyError,
ValueError)` clause of `load_session` (source line 216). -/
def caughtByLoad : PyErr → Bool
  | .jsonDecodeError => true
  | .keyError => true
  | .valueError => true
  | _ => false

/-- `SimpleSessionPersistence.load_session` (source lines 206-217):
a missing file is `None`; malformed JSON raises `JSONDecodeError`,
which is caught; `from_dict` errors are caught only when listed in the
`except` clause, any other exception propagates. -/
def load_session (st : Store) (session_id : String) : Except PyErr (Option SessionData) :=
  match storeLookup st session_id with
  | none => .ok none
  | some .malformed => .ok none
  | some (.json v) =>
    match from_dict v with
    | .ok d => .ok (some d)
    | .error e => if caughtByLoad e then .ok none else .error e

/-- `SimpleSessionPersistence.list_sessions` (source lines 219-224):
enumerate the storage root's children and sort the stems ascending. -/
def list_sessions (st : Store) : List String :=
  (st.map Prod.fst).mergeSort (fun a b => a ≤ b)

/-- `SimpleSessionPersistence.delete_session` (source lines 226-232):
unlink if the file exists and report whether anything was removed; the
unlink itself may raise. -/
def delete_session (flt : Faults) (st : Store) (session_id : String) :
    Except PyErr (Store × Bool) :=
  if (storeLookup st session_id).isSome then
    if flt.deleteFails session_id then .error .osError
    else .ok (storeErase st session_id, true)
  else .ok (st, false)

/-- The reconciler's in-memory state (`SessionPersistentClient`):
`_current_session_id`, `_session_data`, the underlying client's
`options` object, the storage root, and the clock cursor (how many
`datetime.now()` calls have happened so far). -/
structure ClientCore where
  current_session_id : Option String := none
  session_data : Option SessionData := none
  options : Option ClaudeCodeOptions := none
  store : Store := []
  tick : Nat := 0

/-- One `datetime.now()` call: read the injected clock stream at the
cursor and advance the cursor. -/
def now (clock : Nat → Nat) (s : ClientCore) : Nat × ClientCore :=
  (clock s.tick, { s with tick := s.tick + 1 })

/-- Store operations observed on the persistence layer, in the order
the reconciler performs them. -/
inductive StoreOp where
  | save (key : String)
  | delete (key : String)
deriving DecidableEq

/-- Identifier extraction (source lines 212-217):
`getattr(message, "session_id", None)` — of the closed taxonomy only a
`ResultMessage` carries a `session_id` attribute, and the subsequent
`isinstance(message, ResultMessage)` re-extraction is the same value. -/
def extractSessionId : Message → Option String
  | .resultMessage _ _ _ _ _ sid _ _ _ => some sid
  | _ => none

/-- The record synthesized for a fresh identifier (source lines
247-254): the two timestamps come from two separate `datetime.now()`
calls, evaluated in field order. -/
def synthesizeRecord (sid : String) (t1 t2 : Nat) (cwd : String)
    (opts : Option ClaudeCodeOptions) : SessionData :=
  { session_id := sid, start_time := t1, last_activity := t2,
    conversation_history := [], working_directory := cwd, options := opts }

/-- The reconciliation phase of `_handle_message_persistence` (source
lines 212-254): extract the identifier; on a truthy identifier that
differs from the current one either rekey the live record (save under
the new key, then delete the old key) or load/synthesize a record.
Returns the trace of store writes performed and the resulting state, or
the first exception raised. -/
def reconcileSession (clock : Nat → Nat) (cwd : String) (flt : Faults)
    (s : ClientCore) (message : Message) : List StoreOp × Except PyErr ClientCore :=
  match extractSessionId message with
  | none => ([], .ok s)
  | some sid =>
    if sid = "" then ([], .ok s)
    else if s.current_session_id = some sid then ([], .ok s)
    else
      let old := s.current_session_id
      let s1 := { s with current_session_id := some sid }
      match s1.session_data with
      | some d =>
        let (t, s2) := now clock s1
        let d1 := { d with session_id := sid, last_activity := t }
        let s3 := { s2 with session_data := some d1 }
        match save_session flt s3.store d1 with
        | .error e => ([], .error e)
        | .ok st1 =>
          let s4 := { s3 with store := st1 }
          match old with
          | some o =>
            if o ≠ "" then
              match delete_session flt s4.store o with
              | .error e => ([.save sid], .error e)
              | .ok (st2, _) => ([.save sid, .delete o], .ok { s4 with store := st2 })
            else ([.save sid], .ok s4)
          | none => ([.save sid], .ok s4)
      | none =>
        match load_session s1.store sid with
        | .error e => ([], .error e)
        | .ok (some d) => ([], .ok { s1 with session_data := some d })
        | .ok none =>
          let (t1, s2) := now clock s1
          let (t2, s3) := now clock s2
          ([], .ok { s3 with session_data := some (synthesizeRecord sid t1 t2 cwd s3.options) })

/-- `_handle_message_persistence` (source lines 199-262): the
reconciliation phase followed by the unconditional append phase —
if a record is live, append the message (`add_message` bumps
`last_activity` with one `now()` call, line 259 bumps it again) and
save it under its own key. -/
def handleMessagePersistence (clock : Nat → Nat) (cwd : String) (flt : Faults)
    (s : ClientCore) (message : Message) : List StoreOp × Except PyErr ClientCore :=
  match reconcileSession clock cwd flt s message with
  | (tr, .error e) => (tr, .error e)
  | (tr, .ok s1) =>
    match s1.session_data with
    | none => (tr, .ok s1)
    | some d =>
      let (t1, s2) := now clock s1
      let d1 := { d with conversation_history := d.conversation_history ++ [message],
                         last_activity := t1 }
      let (t2, s3) := now clock s2
      let d2 := { d1 with last_activity := t2 }
      let s4 := { s3 with session_data := some d2 }
      match save_session flt s4.store d2 with
      | .error e => (tr, .error e)
      | .ok st1 => (tr ++ [.save d2.session_id], .ok { s4 with store := st1 })

/-- The new-session branch of `start_or_resume_session` (source lines
137-142): clear the resume target if an options object exists, then
clear the in-memory session state. -/
def clearResume (s : ClientCore) : ClientCore :=
  let s1 :=
    match s.options with
    | some o => { s with options := some { o with resume := none } }
    | none => s
  { s1 with current_session_id := none, session_data := none }

/-- `start_or_resume_session` (source lines 115-142): with a truthy
identifier, load it (adopting it as current only when found), then set
the transport resume target; with no identifier, clear the resume
target and the in-memory state. -/
def startOrResumeSession (s : ClientCore) (sid? : Option String) :
    Except PyErr ClientCore :=
  match sid? with
  | some sid =>
    if sid = "" then .ok (clearResume s)
    else
      match load_session s.store sid with
      | .error e => .error e
      | .ok res =>
        let s1 := { s with session_data := res }
        let s2 :=
          match res with
          | some _ => { s1 with current_session_id := some sid }
          | none => s1
        let opts := s2.options.getD ClaudeCodeOptions.mkDefault
        .ok { s2 with options := some { opts with resume := some sid } }
  | none => .ok (clearResume s)

/-- `disconnect` (source lines 144-151): if a record is live, bump its
`last_activity` and perform one final save before tearing down the
transport. -/
def disconnect (clock : Nat → Nat) (flt : Faults) (s : ClientCore) :
    List StoreOp × Except PyErr ClientCore :=
  match s.session_data with
  | none => ([], .ok s)
  | some d =>
    let (t, s1) := now clock s
    let d1 := { d with last_activity := t }
    let s2 := { s1 with session_data := some d1 }
    match save_session flt s2.store d1 with
    | .error e => ([], .error e)
    | .ok st1 => ([.save d1.session_id], .ok { s2 with store := st1 })

/-- One public operation of the persistence layer, fault-free: a
message through the persistence hook, `disconnect`, resume, explicit
deletion, or a process restart against the same storage root (the
in-memory state is lost, the store and the ambient clock survive). -/
inductive Step (clock : Nat → Nat) (cwd : String) : ClientCore → ClientCore → Prop where
  | msg (m : Message) (s s' : ClientCore) :
      (handleMessagePersistence clock cwd noFaults s m).2 = .ok s' → Step clock cwd s s'
  | fin (s s' : ClientCore) :
      (disconnect clock noFaults s).2 = .ok s' → Step clock cwd s s'
  | resume (sid? : Option String) (s s' : ClientCore) :
      startOrResumeSession s sid? = .ok s' → Step clock cwd s s'
  | del (sid : String) (s s' : ClientCore) (st' : Store) (b : Bool) :
      delete_session noFaults s.store sid = .ok (st', b) →
      s' = { s with store := st' } → Step clock cwd s s'
  | restart (s s' : ClientCore) (opts : Option ClaudeCodeOptions) :
      s' = { current_session_id := none, session_data := none, options := opts,
             store := s.store, tick := s.tick } → Step clock cwd s s'

/-- States reachable from a fresh client on a fresh storage root. -/
inductive Reach (clock : Nat → Nat) (cwd : String) : ClientCore → Prop where
  | init (opts : Option ClaudeCodeOptions) :
      Reach clock cwd { current_session_id := none, session_data := none,
                        options := opts, store := [], tick := 0 }
  | step (s s' : ClientCore) :
      Reach clock cwd s → Step clock cwd s s' → Reach clock cwd s'

/-- Timestamp invariant of one record relative to the clock cursor:
`last_activity` never precedes `start_time`, and never exceeds the
clock value any later `now()` call can fall behind. -/
def RecInv (clock : Nat → Nat) (tick : Nat) (d : SessionData) : Prop :=
  d.start_time ≤ d.last_activity ∧ d.last_activity ≤ clock tick

/-- Store invariant: every backing file is the serialization of a
record satisfying the timestamp invariant. -/
def StoreTimeInv (clock : Nat → Nat) (tick : Nat) (st : Store) : Prop :=
  ∀ k c, storeLookup st k = some c → ∃ d, c = .json (to_dict d) ∧ RecInv clock tick d

/-- Combined invariant of a client state: file names are unique in the
storage root, the live record satisfies the timestamp invariant, and so
does every stored record. -/
def CoreInv (clock : Nat → Nat) (s : ClientCore) : Prop :=
  (s.store.map Prod.fst).Nodup ∧
  (∀ d, s.session_data = some d → RecInv clock s.tick d) ∧
  StoreTimeInv clock s.tick s.store

/-! ## Codec lemmas -/

theorem charDigit_digitChar {d : Nat} (h : d < 10) : charDigit (digitChar d) = some d := by
  interval_cases d <;> rfl

theorem mapDigits_map_digitChar (ds : List Nat) (h : ∀ d ∈ ds, d < 10) :
    mapDigits (ds.map digitChar) = some ds := by
  induction ds with
  | nil => rfl
  | cons d rest ih =>
    have hd : d < 10 := h d (List.mem_cons_self d rest)
    have hrest := ih fun x hx => h x (List.mem_cons_of_mem d hx)
    simp only [List.map, mapDigits, charDigit_digitChar hd, hrest]

theorem parseTime_isoformat (t : Nat) : parseTime (isoformat t) = some t := by
  by_cases ht : t = 0
  · subst ht; rfl
  · have hdig : ∀ d ∈ (Nat.digits 10 t).reverse, d < 10 := by
      intro d hd
      exact Nat.digits_lt_base (by norm_num) (List.mem_reverse.mp hd)
    have hne : Nat.digits 10 t ≠ [] := Nat.digits_ne_nil_iff_ne_zero.mpr ht
    have hne' : (Nat.digits 10 t).reverse ≠ [] := by
      simpa using hne
    unfold isoformat parseTime
    rw [if_neg ht]
    have hdata : (String.mk (((Nat.digits 10 t).map digitChar).reverse)).data
        = ((Nat.digits 10 t).reverse).map digitChar := by
      rw [← List.map_reverse]
    rw [hdata, mapDigits_map_digitChar _ hdig]
    have hempty : ((Nat.digits 10 t).reverse).isEmpty = false := by
      cases h : (Nat.digits 10 t).reverse with
      | nil => exact absurd h hne'
      | cons a l => rfl
    show (if ((Nat.digits 10 t).reverse).isEmpty = true then none
          else some (Nat.ofDigits 10 ((Nat.digits 10 t).reverse).reverse)) = some t
    rw [hempty]
    simp only [Bool.false_eq_true, if_false, List.reverse_reverse, Nat.ofDigits_digits]

theorem fromisoformat_isoformat (t : Nat) :
    fromisoformat (.str (isoformat t)) = .ok t := by
  show (match parseTime (isoformat t) with
        | some u => Except.ok u
        | none => Except.error PyErr.valueError) = Except.ok t
  rw [parseTime_isoformat]

/-! ## Serialization round-trip -/

theorem parseBlocks_cons_text (t : JVal) (l : List JVal) :
    parseBlocks (serializeBlock (.textBlock t) :: l) =
      match parseBlocks l with
      | .error e => Except.error e
      | .ok rest => Except.ok (ContentBlock.textBlock t :: rest) := rfl

theorem parseBlocks_cons_toolUse (i n inp : JVal) (l : List JVal) :
    parseBlocks (serializeBlock (.toolUseBlock i n inp) :: l) =
      match parseBlocks l with
      | .error e => Except.error e
      | .ok rest => Except.ok (ContentBlock.toolUseBlock i n inp :: rest) := rfl

theorem parseBlocks_cons_toolResult (tu c ie : JVal) (l : List JVal) :
    parseBlocks (serializeBlock (.toolResultBlock tu c ie) :: l) =
      match parseBlocks l with
      | .error e => Except.error e
      | .ok rest => Except.ok (ContentBlock.toolResultBlock tu JVal.null ie :: rest) := rfl

theorem parseBlocks_serializeBlock (bs : List ContentBlock) :
    parseBlocks (bs.map serializeBlock) = .ok (bs.map normBlock) := by
  induction bs with
  | nil => rfl
  | cons b rest ih =>
    cases b with
    | textBlock t =>
      simp only [List.map, parseBlocks_cons_text, ih, normBlock]
    | toolUseBlock i n inp =>
      simp only [List.map, parseBlocks_cons_toolUse, ih, normBlock]
    | toolResultBlock tu c ie =>
      simp only [List.map, parseBlocks_cons_toolResult, ih, normBlock]

theorem parseMessage_serializeMessage (m : Message) :
    parseMessage? (serializeMessage m) = .ok (some (normMessage m)) := by
  cases m with
  | userMessage c => rfl
  | systemMessage st dt => rfl
  | resultMessage st dm dam ie nt sid cost usage res => rfl
  | assistantMessage bs =>
    show (match parseBlocks (bs.map serializeBlock) with
          | .error e => Except.error e
          | .ok blocks => Except.ok (some (Message.assistantMessage blocks))) = _
    rw [parseBlocks_serializeBlock]
    rfl

theorem parseHistory_serializeMessage (ms : List Message) :
    parseHistory (ms.map serializeMessage) = .ok (ms.map normMessage) := by
  induction ms with
  | nil => rfl
  | cons m rest ih =>
    show (match parseMessage? (serializeMessage m) with
          | .error e => Except.error e
          | .ok none => parseHistory (rest.map serializeMessage)
          | .ok (some msg) =>
            match parseHistory (rest.map serializeMessage) with
            | .error e => Except.error e
            | .ok r => Except.ok (msg :: r)) = _
    rw [parseMessage_serializeMessage, ih]
    rfl

theorem parseOptionsVal_serializeOptions (o? : Option ClaudeCodeOptions) :
    parseOptionsVal (serializeOptions o?) = .ok (o?.map normOptions) := by
  cases o? with
  | none => rfl
  | some o => rfl

theorem from_dict_to_dict (d : SessionData) :
    from_dict (to_dict d) = .ok (normSession d) := by
  show (match parseHistory (d.conversation_history.map serializeMessage) with
        | .error e => Except.error e
        | .ok hist =>
          match parseOptionsVal (serializeOptions d.options) with
          | .error e => Except.error e
          | .ok opts =>
            match fromisoformat (.str (isoformat d.start_time)) with
            | .error e => Except.error e
            | .ok st =>
              match fromisoformat (.str (isoformat d.last_activity)) with
              | .error e => Except.error e
              | .ok la =>
                Except.ok ({ session_id := d.session_id, start_time := st,
                             last_activity := la, conversation_history := hist,
                             working_directory := d.working_directory,
                             options := opts } : SessionData)) = _
  rw [parseHistory_serializeMessage, parseOptionsVal_serializeOptions,
    fromisoformat_isoformat, fromisoformat_isoformat]
  rfl

/-! ## Store lemmas -/

theorem storeLookup_insert_self (st : Store) (k : String) (c : FileContent) :
    storeLookup (storeInsert st k c) k = some c := by
  induction st with
  | nil => simp [storeInsert, storeLookup]
  | cons p rest ih =>
    by_cases h : p.1 = k
    · simp [storeInsert, storeLookup, h]
    · simp [storeInsert, storeLookup, h, ih]

theorem storeLookup_insert_ne (st : Store) (k k' : String) (c : FileContent)
    (h : k' ≠ k) : storeLookup (storeInsert st k c) k' = storeLookup st k' := by
  induction st with
  | nil => simp [storeInsert, storeLookup, Ne.symm h]
  | cons p rest ih =>
    by_cases hp : p.1 = k
    · subst hp
      simp [storeInsert, storeLookup, Ne.symm h]
    · by_cases hp' : p.1 = k'
      · simp [storeInsert, storeLookup, hp, hp', h]
      · simp [storeInsert, storeLookup, hp, hp', ih]

theorem storeLookup_erase_ne (st : Store) (k k' : String) (h : k' ≠ k) :
    storeLookup (storeErase st k) k' = storeLookup st k' := by
  induction st with
  | nil => simp [storeErase, storeLookup]
  | cons p rest ih =>
    by_cases hp : p.1 = k
    · subst hp
      simp [storeErase, storeLookup, Ne.symm h]
    · by_cases hp' : p.1 = k'
      · simp [storeErase, storeLookup, hp, hp', h]
      · simp [storeErase, storeLookup, hp, hp', ih]

theorem map_fst_storeErase (st : Store) (k : String) :
    (storeErase st k).map Prod.fst = (st.map Prod.fst).erase k := by
  induction st with
  | nil => rfl
  | cons p rest ih =>
    by_cases hp : p.1 = k
    · subst hp
      simp [storeErase, List.erase_cons]
    · simp [storeErase, List.erase_cons, hp, ih, Ne.symm hp]

theorem storeLookup_none_iff (st : Store) (k : String) :
    storeLookup st k = none ↔ k ∉ st.map Prod.fst := by
  induction st with
  | nil => simp [storeLookup]
  | cons p rest ih =>
    by_cases hp : p.1 = k
    · simp [storeLookup, hp]
    · simp [storeLookup, hp, ih, Ne.symm hp]

theorem storeLookup_erase_self (st : Store) (k : String)
    (h : (st.map Prod.fst).Nodup) : storeLookup (storeErase st k) k = none := by
  rw [storeLookup_none_iff, map_fst_storeErase]
  by_cases hk : k ∈ st.map Prod.fst
  · exact h.not_mem_erase
  · exact fun hmem => hk (List.mem_of_mem_erase hmem)

theorem mem_list_sessions (st : Store) (a : String) :
    a ∈ list_sessions st ↔ a ∈ st.map Prod.fst :=
  (List.mergeSort_perm (st.map Prod.fst) (fun x y => x ≤ y)).mem_iff

/-! ## Unknown-variant skipping -/

theorem parseMessage_unknown_tag (m : List (String × JVal))
    (h1 : jget m "message_type" (.str "") ≠ .str "UserMessage")
    (h2 : jget m "message_type" (.str "") ≠ .str "AssistantMessage")
    (h3 : jget m "message_type" (.str "") ≠ .str "SystemMessage")
    (h4 : jget m "message_type" (.str "") ≠ .str "ResultMessage") :
    parseMessage? (.obj m) = .ok none := by
  have hred : parseMessage? (JVal.obj m) =
      (match jget m "message_type" (JVal.str "") with
       | JVal.str "UserMessage" =>
         match jlookup m "content" with
         | some c => Except.ok (some (Message.userMessage c))
         | none => Except.error PyErr.keyError
       | JVal.str "AssistantMessage" =>
         match pyIter (jget m "content" (JVal.arr [])) with
         | Except.error e => Except.error e
         | Except.ok items =>
           match parseBlocks items with
           | Except.error e => Except.error e
           | Except.ok bs => Except.ok (some (Message.assistantMessage bs))
       | JVal.str "SystemMessage" =>
         Except.ok (some (Message.systemMessage (jget m "subtype" (JVal.str ""))
           (jget m "data" (JVal.obj []))))
       | JVal.str "ResultMessage" =>
         Except.ok (some (Message.resultMessage (jget m "subtype" (JVal.str ""))
           (jget m "duration_ms" (JVal.num 0)) (jget m "duration_api_ms" (JVal.num 0))
           (jget m "is_error" (JVal.bool false)) (jget m "num_turns" (JVal.num 0))
           (asStr (jget m "session_id" (JVal.str "")))
           (jget m "total_cost_usd" JVal.null) (jget m "usage" JVal.null)
           (jget m "result" JVal.null)))
       | _ => Except.ok none) := rfl
  rw [hred]
  split
  · exact absurd (by assumption) h1
  · exact absurd (by assumption) h2
  · exact absurd (by assumption) h3
  · exact absurd (by assumption) h4
  · rfl

theorem parseHistory_skip (pre post : List JVal) (e : JVal)
    (he : parseMessage? e = .ok none) :
    parseHistory (pre ++ e :: post) = parseHistory (pre ++ post) := by
  induction pre with
  | nil =>
    simp only [List.nil_append]
    show (match parseMessage? e with
          | .error e' => Except.error e'
          | .ok none => parseHistory post
          | .ok (some msg) =>
            match parseHistory post with
            | .error e' => Except.error e'
            | .ok r => Except.ok (msg :: r)) = parseHistory post
    rw [he]
  | cons x rest ih =>
    simp only [List.cons_append]
    show (match parseMessage? x with
          | .error e' => Except.error e'
          | .ok none => parseHistory (rest ++ e :: post)
          | .ok (some msg) =>
            match parseHistory (rest ++ e :: post) with
            | .error e' => Except.error e'
            | .ok r => Except.ok (msg :: r)) =
         (match parseMessage? x with
          | .error e' => Except.error e'
          | .ok none => parseHistory (rest ++ post)
          | .ok (some msg) =>
            match parseHistory (rest ++ post) with
            | .error e' => Except.error e'
            | .ok r => Except.ok (msg :: r))
    rw [ih]

/-! ## Claim C4 -/

/-- C4: the claim states that load-after-save reconstructs every
message's content exactly.  The code contradicts itself: `to_dict`
writes no `content` key for a tool-result block while `from_dict` reads
one, so a round-trip replaces a tool-result block's content by null.
This theorem evaluates the code at the failing input: a record whose
history holds one assistant message with one tool-result block carrying
content `"out"` comes back with that content erased. -/
theorem C4_roundtrip_drops_tool_result_content :
    from_dict (to_dict
      { session_id := "s1"
        start_time := 1
        last_activity := 2
        conversation_history := [Message.assistantMessage
          [ContentBlock.toolResultBlock (JVal.str "t1") (JVal.str "out") (JVal.bool false)]]
        working_directory := "/tmp"
        options := none }) =
      Except.ok
      { session_id := "s1"
        start_time := 1
        last_activity := 2
        conversation_history := [Message.assistantMessage
          [ContentBlock.toolResultBlock (JVal.str "t1") JVal.null (JVal.bool false)]]
        working_directory := "/tmp"
        options := none } ∧
    ContentBlock.toolResultBlock (JVal.str "t1") JVal.null (JVal.bool false) ≠
      ContentBlock.toolResultBlock (JVal.str "t1") (JVal.str "out") (JVal.bool false) := by
  constructor
  · exact from_dict_to_dict _
  · intro h
    injection h with e1 e2 e3
    exact JVal.noConfusion e2

/-! ## Claim C5 -/

/-- C5 counterexample: the claim says a load of corrupt stored content
never raises, but an entry holding valid JSON of unexpected shape (a
top-level array) makes `from_dict` raise `AttributeError` at
`data.get`, which the `except (json.JSONDecodeError, KeyError,
ValueError)` clause does not catch, so `load_session` raises. -/
theorem C5_counterexample :
    load_session [("s", FileContent.json (JVal.arr []))] "s" =
      Except.error PyErr.attributeError := rfl

/-- C5 as amended: a load of a never-saved identifier returns absent
and never raises; a load of an entry that is not syntactically valid
JSON returns absent; a load of valid JSON whose parse fails with one of
the caught exceptions (`JSONDecodeError`, `KeyError`, `ValueError`)
returns absent; but a parse failure with any other exception
(`TypeError`, `AttributeError`) propagates to the caller. -/
theorem C5_load_absorbs_caught_anomalies (st : Store) (sid : String) :
    (storeLookup st sid = none → load_session st sid = Except.ok none) ∧
    (storeLookup st sid = some FileContent.malformed →
      load_session st sid = Except.ok none) ∧
    (∀ v e, storeLookup st sid = some (FileContent.json v) →
      from_dict v = Except.error e → caughtByLoad e = true →
      load_session st sid = Except.ok none) ∧
    (∀ v e, storeLookup st sid = some (FileContent.json v) →
      from_dict v = Except.error e → caughtByLoad e = false →
      load_session st sid = Except.error e) := by
  refine ⟨fun h => ?_, fun h => ?_, fun v e h hf hc => ?_, fun v e h hf hc => ?_⟩
  · simp [load_session, h]
  · simp [load_session, h]
  · simp [load_session, h, hf, hc]
  · simp [load_session, h, hf, hc]

/-- C5 witness: the three absorbed anomalies at concrete inputs — a
never-saved id, malformed file contents, and valid JSON missing its
required keys (`KeyError`, caught). -/
theorem C5_witness :
    load_session [] "never" = Except.ok none ∧
    load_session [("a", FileContent.malformed)] "a" = Except.ok none ∧
    load_session [("b", FileContent.json (JVal.obj []))] "b" = Except.ok none :=
  ⟨(C5_load_absorbs_caught_anomalies [] "never").1 rfl,
   (C5_load_absorbs_caught_anomalies [("a", FileContent.malformed)] "a").2.1 rfl,
   (C5_load_absorbs_caught_anomalies [("b", FileContent.json (JVal.obj []))] "b").2.2.1
     (JVal.obj []) PyErr.keyError rfl rfl rfl⟩

/-! ## Claim C8 -/

/-- C8: a stored history entry whose `message_type` discriminator tag
is none of the four known variants is skipped individually — the
history reconstructed from the surrounding entries is exactly the
history reconstructed with the unknown entry removed, so the remaining
known-variant messages all survive and the load is not aborted. -/
theorem C8_unknown_variant_skipped (pre post : List JVal) (m : List (String × JVal))
    (h1 : jget m "message_type" (.str "") ≠ .str "UserMessage")
    (h2 : jget m "message_type" (.str "") ≠ .str "AssistantMessage")
    (h3 : jget m "message_type" (.str "") ≠ .str "SystemMessage")
    (h4 : jget m "message_type" (.str "") ≠ .str "ResultMessage") :
    parseHistory (pre ++ JVal.obj m :: post) = parseHistory (pre ++ post) :=
  parseHistory_skip pre post (JVal.obj m) (parseMessage_unknown_tag m h1 h2 h3 h4)

/-- C8 witness: an entry tagged with the unknown variant
`FancyNewMessage` between a user message and a system message is
dropped and both neighbours are reconstructed. -/
theorem C8_witness :
    parseHistory ([serializeMessage (.userMessage (.str "hi"))] ++
        JVal.obj [("message_type", JVal.str "FancyNewMessage")] ::
        [serializeMessage (.systemMessage (.str "s") (.obj []))]) =
      parseHistory ([serializeMessage (.userMessage (.str "hi"))] ++
        [serializeMessage (.systemMessage (.str "s") (.obj []))]) :=
  C8_unknown_variant_skipped _ _ _
    (fun h => by injection h with h'; exact absurd h' (by decide))
    (fun h => by injection h with h'; exact absurd h' (by decide))
    (fun h => by injection h with h'; exact absurd h' (by decide))
    (fun h => by injection h with h'; exact absurd h' (by decide))

/-! ## Claim C9 -/

/-- C9: deleting an existing key succeeds with `true` and the key is
absent from a subsequent listing; deleting a non-existent key returns
`false` and leaves the store exactly as it was. -/
theorem C9_delete_semantics (st : Store) (sid : String)
    (hnd : (st.map Prod.fst).Nodup) :
    ((storeLookup st sid).isSome = true →
      delete_session noFaults st sid = Except.ok (storeErase st sid, true) ∧
      sid ∉ list_sessions (storeErase st sid)) ∧
    (storeLookup st sid = none →
      delete_session noFaults st sid = Except.ok (st, false)) := by
  constructor
  · intro h
    constructor
    · simp [delete_session, h, noFaults]
    · rw [mem_list_sessions, map_fst_storeErase]
      exact hnd.not_mem_erase
  · intro h
    simp [delete_session, h]

/-- C9 witness: on the one-entry store for `s1`, deleting `s1`
succeeds, the listing afterwards excludes it, and deleting the absent
`s2` is a reported no-op. -/
theorem C9_witness :
    delete_session noFaults [("s1", FileContent.malformed)] "s1" =
        Except.ok ([], true) ∧
    "s1" ∉ list_sessions ([] : Store) ∧
    delete_session noFaults [("s1", FileContent.malformed)] "s2" =
        Except.ok ([("s1", FileContent.malformed)], false) := by
  have h := C9_delete_semantics [("s1", FileContent.malformed)] "s1" (by decide)
  have h' := C9_delete_semantics [("s1", FileContent.malformed)] "s2" (by decide)
  have ha := h.1 rfl
  exact ⟨ha.1, ha.2, h'.2 rfl⟩

/-! ## Reconciler path equations -/

theorem reconcile_no_sid (clock : Nat → Nat) (cwd : String) (flt : Faults)
    (s : ClientCore) (m : Message) (hex : extractSessionId m = none) :
    reconcileSession clock cwd flt s m = ([], .ok s) := by
  unfold reconcileSession
  rw [hex]

theorem reconcile_same_sid (clock : Nat → Nat) (cwd : String) (flt : Faults)
    (s : ClientCore) (m : Message) (b : String) (hex : extractSessionId m = some b)
    (hb : b ≠ "") (hcur : s.current_session_id = some b) :
    reconcileSession clock cwd flt s m = ([], .ok s) := by
  simp [reconcileSession, hex, hb, hcur]

theorem reconcile_rename_eq (clock : Nat → Nat) (cwd : String) (flt : Faults)
    (a b : String) (R : SessionData) (opts : Option ClaudeCodeOptions) (st : Store)
    (tick : Nat) (m : Message) (hex : extractSessionId m = some b) (hb : b ≠ "")
    (hab : a ≠ b) :
    reconcileSession clock cwd flt ⟨some a, some R, opts, st, tick⟩ m =
      (match save_session flt st { R with session_id := b, last_activity := clock tick } with
       | .error e => ([], .error e)
       | .ok st1 =>
         if a ≠ "" then
           match delete_session flt st1 a with
           | .error e => ([StoreOp.save b], .error e)
           | .ok (st2, _) =>
             ([StoreOp.save b, StoreOp.delete a],
              .ok ⟨some b, some { R with session_id := b, last_activity := clock tick },
                   opts, st2, tick + 1⟩)
         else
           ([StoreOp.save b],
            .ok ⟨some b, some { R with session_id := b, last_activity := clock tick },
                 opts, st1, tick + 1⟩)) := by
  simp [reconcileSession, hex, hb, hab, now]

theorem reconcile_fresh_eq (clock : Nat → Nat) (cwd : String) (flt : Faults)
    (c? : Option String) (opts : Option ClaudeCodeOptions) (st : Store)
    (tick : Nat) (m : Message) (b : String) (hex : extractSessionId m = some b)
    (hb : b ≠ "") (hcur : ¬ c? = some b) :
    reconcileSession clock cwd flt ⟨c?, none, opts, st, tick⟩ m =
      (match load_session st b with
       | .error e => ([], .error e)
       | .ok (some d) => ([], .ok ⟨some b, some d, opts, st, tick⟩)
       | .ok none =>
         ([], .ok ⟨some b,
               some (synthesizeRecord b (clock tick) (clock (tick + 1)) cwd opts),
               opts, st, tick + 2⟩)) := by
  simp [reconcileSession, hex, hb, hcur, now]

theorem handle_of_reconcile_error (clock : Nat → Nat) (cwd : String) (flt : Faults)
    (s : ClientCore) (m : Message) (tr : List StoreOp) (e : PyErr)
    (h : reconcileSession clock cwd flt s m = (tr, .error e)) :
    handleMessagePersistence clock cwd flt s m = (tr, .error e) := by
  unfold handleMessagePersistence
  rw [h]

theorem handle_of_reconcile_none (clock : Nat → Nat) (cwd : String) (flt : Faults)
    (s : ClientCore) (m : Message) (tr : List StoreOp) (c? : Option String)
    (opts : Option ClaudeCodeOptions) (st : Store) (tick : Nat)
    (h : reconcileSession clock cwd flt s m = (tr, .ok ⟨c?, none, opts, st, tick⟩)) :
    handleMessagePersistence clock cwd flt s m = (tr, .ok ⟨c?, none, opts, st, tick⟩) := by
  unfold handleMessagePersistence
  rw [h]

theorem handle_of_reconcile_some (clock : Nat → Nat) (cwd : String) (flt : Faults)
    (s : ClientCore) (m : Message) (tr : List StoreOp) (c? : Option String)
    (d : SessionData) (opts : Option ClaudeCodeOptions) (st : Store) (tick : Nat)
    (h : reconcileSession clock cwd flt s m = (tr, .ok ⟨c?, some d, opts, st, tick⟩)) :
    handleMessagePersistence clock cwd flt s m =
      (match save_session flt st
          { d with
            conversation_history := d.conversation_history ++ [m]
            last_activity := clock (tick + 1) } with
       | .error e => (tr, .error e)
       | .ok st1 =>
         (tr ++ [StoreOp.save d.session_id],
          .ok ⟨c?, some
                 { d with
                   conversation_history := d.conversation_history ++ [m]
                   last_activity := clock (tick + 1) },
               opts, st1, tick + 2⟩)) := by
  unfold handleMessagePersistence
  rw [h]
  rfl

/-! ## Claim C10 -/

/-- C10: resuming an identifier the store does not know leaves the
in-memory record cleared and sets the transport resume target to that
identifier, but `current_session_id` keeps its prior value — it is
neither set to the requested identifier nor cleared (source lines
127-136 only assign `_current_session_id` when the load found data). -/
theorem C10_resume_unknown_keeps_current (c? : Option String) (R? : Option SessionData)
    (opts : Option ClaudeCodeOptions) (st : Store) (tick : Nat) (sid : String)
    (hsid : sid ≠ "") (hload : load_session st sid = .ok none) :
    startOrResumeSession ⟨c?, R?, opts, st, tick⟩ (some sid) =
      .ok ⟨c?, none,
           some { opts.getD ClaudeCodeOptions.mkDefault with resume := some sid },
           st, tick⟩ := by
  simp [startOrResumeSession, hsid, hload]

/-- C10 witness: after a session `old`, resuming the unknown id `new`
leaves `current_session_id` still naming `old` while the resume target
is `new` and no record is in memory. -/
theorem C10_witness :
    startOrResumeSession ⟨some "old", none, none, [], 0⟩ (some "new") =
      .ok ⟨some "old", none,
           some { ClaudeCodeOptions.mkDefault with resume := some "new" }, [], 0⟩ :=
  C10_resume_unknown_keeps_current (some "old") none none [] 0 "new" (by decide) rfl

/-! ## Claim C3 -/

/-- C3 counterexample: with a clock that advances between consecutive
reads (here the identity stream), the record synthesized for the fresh
identifier `abc` (source lines 247-254, embedded as the reconciliation
result before the append phase) has `start_time = 0` from the first
`datetime.now()` call and `last_activity = 1` from the second, so the
claimed equality `start_time = last_activity` at the creation instant
fails. -/
theorem C3_counterexample :
    (reconcileSession (fun i => i) "/w" noFaults ⟨none, none, none, [], 0⟩
        (Message.resultMessage (JVal.str "init") (JVal.num 1) (JVal.num 1)
          (JVal.bool false) (JVal.num 1) "abc" JVal.null JVal.null JVal.null)).2 =
      Except.ok ⟨some "abc", some (synthesizeRecord "abc" 0 1 "/w" none), none, [], 2⟩ ∧
    (synthesizeRecord "abc" 0 1 "/w" none).start_time ≠
      (synthesizeRecord "abc" 0 1 "/w" none).last_activity :=
  ⟨rfl, by decide⟩

/-- C3 as amended: a reconciler with no current record, receiving a
first message bearing a truthy identifier C absent from the store,
synthesizes a record with `session_id = C`, the current working
directory, and empty history; its `start_time` is one clock read and
its `last_activity` the immediately following read, so under a
monotone clock `start_time ≤ last_activity` (equal exactly when the
clock does not advance between the reads, e.g. a frozen test clock);
the message is then appended and saved, after which the current id is
C and the store holds the record with exactly that one message. -/
theorem C3_fresh_id_synthesis (clock : Nat → Nat) (cwd : String)
    (opts : Option ClaudeCodeOptions) (st : Store) (tick : Nat) (m : Message)
    (C : String) (hex : extractSessionId m = some C) (hC : C ≠ "")
    (hload : storeLookup st C = none) (hm : Monotone clock) :
    (reconcileSession clock cwd noFaults ⟨none, none, opts, st, tick⟩ m).2 =
      Except.ok ⟨some C, some (synthesizeRecord C (clock tick) (clock (tick + 1)) cwd opts),
                 opts, st, tick + 2⟩ ∧
    (synthesizeRecord C (clock tick) (clock (tick + 1)) cwd opts).session_id = C ∧
    (synthesizeRecord C (clock tick) (clock (tick + 1)) cwd opts).working_directory = cwd ∧
    (synthesizeRecord C (clock tick) (clock (tick + 1)) cwd opts).conversation_history = [] ∧
    (synthesizeRecord C (clock tick) (clock (tick + 1)) cwd opts).start_time =
      clock tick ∧
    (synthesizeRecord C (clock tick) (clock (tick + 1)) cwd opts).last_activity =
      clock (tick + 1) ∧
    (synthesizeRecord C (clock tick) (clock (tick + 1)) cwd opts).start_time ≤
      (synthesizeRecord C (clock tick) (clock (tick + 1)) cwd opts).last_activity ∧
    ∃ dFin : SessionData,
      handleMessagePersistence clock cwd noFaults ⟨none, none, opts, st, tick⟩ m =
        ([StoreOp.save C],
         Except.ok ⟨some C, some dFin, opts,
                    storeInsert st C (.json (to_dict dFin)), tick + 4⟩) ∧
      dFin.session_id = C ∧
      dFin.working_directory = cwd ∧
      dFin.conversation_history = [m] ∧
      dFin.start_time = clock tick ∧
      dFin.last_activity = clock (tick + 3) ∧
      storeLookup (storeInsert st C (.json (to_dict dFin))) C =
        some (.json (to_dict dFin)) ∧
      load_session (storeInsert st C (.json (to_dict dFin))) C =
        .ok (some (normSession dFin)) := by
  have hld : load_session st C = .ok none := by
    simp [load_session, hload]
  have hrec : reconcileSession clock cwd noFaults ⟨none, none, opts, st, tick⟩ m =
      ([], .ok ⟨some C, some (synthesizeRecord C (clock tick) (clock (tick + 1)) cwd opts),
                opts, st, tick + 2⟩) := by
    rw [reconcile_fresh_eq clock cwd noFaults none opts st tick m C hex hC (by simp), hld]
  refine ⟨by rw [hrec], rfl, rfl, rfl, rfl, rfl, hm (Nat.le_succ tick), ?_⟩
  have hha := handle_of_reconcile_some clock cwd noFaults _ m []
    (some C) (synthesizeRecord C (clock tick) (clock (tick + 1)) cwd opts)
    opts st (tick + 2) hrec
  refine ⟨{ session_id := C, start_time := clock tick,
            last_activity := clock (tick + 3), conversation_history := [m],
            working_directory := cwd, options := opts }, ?_, rfl, rfl, rfl, rfl, rfl,
          storeLookup_insert_self st C _, ?_⟩
  · rw [hha]
    rfl
  · simp [load_session, storeLookup_insert_self, from_dict_to_dict]

/-- C3 witness: with a frozen test clock that always returns 7 (as the
spec's injected-clock design note envisions), the synthesized record
has `start_time = last_activity = 7`, and the reconciliation of a
first message carrying the fresh id `abc` against an empty store
produces exactly that record. -/
theorem C3_witness :
    (synthesizeRecord "abc" 7 7 "/w" none).start_time ≤
      (synthesizeRecord "abc" 7 7 "/w" none).last_activity ∧
    (reconcileSession (fun _ => 7) "/w" noFaults ⟨none, none, none, [], 0⟩
        (Message.resultMessage (JVal.str "init") (JVal.num 1) (JVal.num 1)
          (JVal.bool false) (JVal.num 1) "abc" JVal.null JVal.null JVal.null)).2 =
      Except.ok ⟨some "abc", some (synthesizeRecord "abc" 7 7 "/w" none), none, [], 2⟩ := by
  have h := C3_fresh_id_synthesis (fun _ => 7) "/w" none [] 0
    (Message.resultMessage (JVal.str "init") (JVal.num 1) (JVal.num 1)
      (JVal.bool false) (JVal.num 1) "abc" JVal.null JVal.null JVal.null)
    "abc" rfl (by decide) rfl monotone_const
  exact ⟨h.2.2.2.2.2.2.1, h.1⟩

/-! ## Claim C2 -/

/-- C2: in every `on_message` execution that performs a rename, the
save of the current record under the new identifier is the first store
write and strictly precedes the delete of the old identifier's entry;
and if that save raises, the whole operation fails with the exception,
no store operation has been performed, and in particular the old key
was never deleted, so the old record remains on disk. -/
theorem C2_rename_save_before_delete (clock : Nat → Nat) (cwd : String) (flt : Faults)
    (a b : String) (R : SessionData) (opts : Option ClaudeCodeOptions) (st : Store)
    (tick : Nat) (m : Message) (hex : extractSessionId m = some b) (hb : b ≠ "")
    (hab : a ≠ b) (ha : a ≠ "") :
    (flt.saveFails b = false → flt.deleteFails a = false →
      ∃ rest, (handleMessagePersistence clock cwd flt
          ⟨some a, some R, opts, st, tick⟩ m).1 =
        StoreOp.save b :: StoreOp.delete a :: rest) ∧
    (flt.saveFails b = true →
      (handleMessagePersistence clock cwd flt ⟨some a, some R, opts, st, tick⟩ m).2 =
        .error PyErr.osError ∧
      (handleMessagePersistence clock cwd flt ⟨some a, some R, opts, st, tick⟩ m).1 =
        []) := by
  have hr := reconcile_rename_eq clock cwd flt a b R opts st tick m hex hb hab
  constructor
  · intro hs hd
    have hsave : save_session flt st
        { R with session_id := b, last_activity := clock tick } =
        .ok (storeInsert st b (.json (to_dict
          { R with session_id := b, last_activity := clock tick }))) := by
      simp [save_session, hs]
    by_cases hEx : (storeLookup (storeInsert st b (.json (to_dict
        { R with session_id := b, last_activity := clock tick }))) a).isSome = true
    · have hrec : reconcileSession clock cwd flt ⟨some a, some R, opts, st, tick⟩ m =
          ([StoreOp.save b, StoreOp.delete a],
           .ok ⟨some b, some { R with session_id := b, last_activity := clock tick },
                opts, storeErase (storeInsert st b (.json (to_dict
                  { R with session_id := b, last_activity := clock tick }))) a,
                tick + 1⟩) := by
        rw [hr, hsave]
        simp [delete_session, hEx, hd, ha]
      have hha := handle_of_reconcile_some clock cwd flt _ m
        [StoreOp.save b, StoreOp.delete a] (some b)
        { R with session_id := b, last_activity := clock tick } opts _ (tick + 1) hrec
      rw [hha]
      have hsave2 : flt.saveFails
          ({ R with session_id := b, last_activity := clock tick } : SessionData).session_id
          = false := hs
      simp [save_session, hsave2]
    · have hrec : reconcileSession clock cwd flt ⟨some a, some R, opts, st, tick⟩ m =
          ([StoreOp.save b, StoreOp.delete a],
           .ok ⟨some b, some { R with session_id := b, last_activity := clock tick },
                opts, storeInsert st b (.json (to_dict
                  { R with session_id := b, last_activity := clock tick })),
                tick + 1⟩) := by
        rw [hr, hsave]
        simp [delete_session, hEx, ha]
      have hha := handle_of_reconcile_some clock cwd flt _ m
        [StoreOp.save b, StoreOp.delete a] (some b)
        { R with session_id := b, last_activity := clock tick } opts _ (tick + 1) hrec
      rw [hha]
      have hsave2 : flt.saveFails
          ({ R with session_id := b, last_activity := clock tick } : SessionData).session_id
          = false := hs
      simp [save_session, hsave2]
  · intro hs
    have hsave : save_session flt st
        { R with session_id := b, last_activity := clock tick } =
        .error PyErr.osError := by
      simp [save_session, hs]
    have hrec : reconcileSession clock cwd flt ⟨some a, some R, opts, st, tick⟩ m =
        ([], .error PyErr.osError) := by
      rw [hr, hsave]
    rw [handle_of_reconcile_error clock cwd flt _ m [] PyErr.osError hrec]
    exact ⟨rfl, rfl⟩

/-- C2 witness: a concrete rename (current id `abc`, live record,
message carrying `xyz`) in the fault-free world: the operation trace
begins with the save of `xyz` followed by the delete of `abc`. -/
theorem C2_witness :
    (handleMessagePersistence (fun i => i) "/w" noFaults
        ⟨some "abc", some { session_id := "abc", start_time := 0, last_activity := 0 },
         none, [], 0⟩
        (Message.resultMessage (JVal.str "done") (JVal.num 1) (JVal.num 1)
          (JVal.bool false) (JVal.num 1) "xyz" JVal.null JVal.null JVal.null)).1.take 2 =
      [StoreOp.save "xyz", StoreOp.delete "abc"] := by
  obtain ⟨rest, hrest⟩ := (C2_rename_save_before_delete (fun i => i) "/w" noFaults
    "abc" "xyz" { session_id := "abc", start_time := 0, last_activity := 0 } none [] 0
    (Message.resultMessage (JVal.str "done") (JVal.num 1) (JVal.num 1)
      (JVal.bool false) (JVal.num 1) "xyz" JVal.null JVal.null JVal.null)
    rfl (by decide) (by decide) (by decide)).1 rfl rfl
  rw [hrest]
  rfl

/-! ## Claim C6 -/

/-- C6: write failures surface synchronously.  (i) An explicit save
whose underlying write raises propagates the exception; (ii) the final
save of `disconnect` (finalize) propagates it; (iii) a failing
per-message save inside `on_message` propagates it; (iv) a failing
rename save inside `on_message` propagates it; (v) a failing delete of
an existing old key during a rename propagates it.  In every case the
operation's result is the exception itself — nothing is swallowed and
no retry happens. -/
theorem C6_write_failures_propagate (clock : Nat → Nat) (cwd : String) (flt : Faults) :
    (∀ st d, flt.saveFails d.session_id = true →
      save_session flt st d = Except.error PyErr.osError) ∧
    (∀ c? opts st tick d, flt.saveFails d.session_id = true →
      (disconnect clock flt ⟨c?, some d, opts, st, tick⟩).2 =
        Except.error PyErr.osError) ∧
    (∀ c? opts st tick d m, extractSessionId m = none →
      flt.saveFails d.session_id = true →
      (handleMessagePersistence clock cwd flt ⟨c?, some d, opts, st, tick⟩ m).2 =
        Except.error PyErr.osError) ∧
    (∀ a b R opts st tick m, extractSessionId m = some b → b ≠ "" → a ≠ b →
      flt.saveFails b = true →
      (handleMessagePersistence clock cwd flt ⟨some a, some R, opts, st, tick⟩ m).2 =
        Except.error PyErr.osError) ∧
    (∀ a b R opts st tick m fc, extractSessionId m = some b → b ≠ "" → a ≠ b →
      a ≠ "" → flt.saveFails b = false → flt.deleteFails a = true →
      storeLookup st a = some fc →
      (handleMessagePersistence clock cwd flt ⟨some a, some R, opts, st, tick⟩ m).2 =
        Except.error PyErr.osError) := by
  refine ⟨?_, ?_, ?_, ?_, ?_⟩
  · intro st d h
    simp [save_session, h]
  · intro c? opts st tick d h
    simp [disconnect, now, save_session, h]
  · intro c? opts st tick d m hex h
    have hrec := reconcile_no_sid clock cwd flt ⟨c?, some d, opts, st, tick⟩ m hex
    rw [handle_of_reconcile_some clock cwd flt _ m [] c? d opts st tick hrec]
    simp [save_session, h]
  · intro a b R opts st tick m hex hb hab h
    have hsave : save_session flt st
        { R with session_id := b, last_activity := clock tick } =
        .error PyErr.osError := by
      simp [save_session, h]
    have hrec : reconcileSession clock cwd flt ⟨some a, some R, opts, st, tick⟩ m =
        ([], .error PyErr.osError) := by
      rw [reconcile_rename_eq clock cwd flt a b R opts st tick m hex hb hab, hsave]
    rw [handle_of_reconcile_error clock cwd flt _ m [] PyErr.osError hrec]
  · intro a b R opts st tick m fc hex hb hab ha hs hd hfc
    have hsave : save_session flt st
        { R with session_id := b, last_activity := clock tick } =
        .ok (storeInsert st b (.json (to_dict
          { R with session_id := b, last_activity := clock tick }))) := by
      simp [save_session, hs]
    have hEx : (storeLookup (storeInsert st b (.json (to_dict
        { R with session_id := b, last_activity := clock tick }))) a).isSome = true := by
      rw [storeLookup_insert_ne st b a _ hab, hfc]
      rfl
    have hrec : reconcileSession clock cwd flt ⟨some a, some R, opts, st, tick⟩ m =
        ([StoreOp.save b], .error PyErr.osError) := by
      rw [reconcile_rename_eq clock cwd flt a b R opts st tick m hex hb hab, hsave]
      simp [delete_session, hEx, hd, ha]
    rw [handle_of_reconcile_error clock cwd flt _ m [StoreOp.save b] PyErr.osError hrec]

/-- C6 witness: with every write failing, a plain save, a finalize and
an append-phase `on_message` save each surface `OSError` at concrete
inputs; with only the delete of `abc` failing, a rename from `abc` to
`xyz` over a store containing `abc` surfaces it too. -/
theorem C6_witness :
    save_session ⟨fun _ => true, fun _ => false⟩ []
      { session_id := "s", start_time := 0, last_activity := 0 } =
      Except.error PyErr.osError ∧
    (disconnect (fun i => i) ⟨fun _ => true, fun _ => false⟩
      ⟨some "s", some { session_id := "s", start_time := 0, last_activity := 0 },
       none, [], 0⟩).2 = Except.error PyErr.osError ∧
    (handleMessagePersistence (fun i => i) "/w" ⟨fun _ => false, fun _ => true⟩
      ⟨some "abc", some { session_id := "abc", start_time := 0, last_activity := 0 },
       none, [("abc", FileContent.malformed)], 0⟩
      (Message.resultMessage (JVal.str "done") (JVal.num 1) (JVal.num 1)
        (JVal.bool false) (JVal.num 1) "xyz" JVal.null JVal.null JVal.null)).2 =
      Except.error PyErr.osError := by
  refine ⟨?_, ?_, ?_⟩
  · exact (C6_write_failures_propagate (fun i => i) "/w"
      ⟨fun _ => true, fun _ => false⟩).1 []
      { session_id := "s", start_time := 0, last_activity := 0 } rfl
  · exact (C6_write_failures_propagate (fun i => i) "/w"
      ⟨fun _ => true, fun _ => false⟩).2.1 (some "s") none [] 0
      { session_id := "s", start_time := 0, last_activity := 0 } rfl
  · exact (C6_write_failures_propagate (fun i => i) "/w"
      ⟨fun _ => false, fun _ => true⟩).2.2.2.2 "abc" "xyz"
      { session_id := "abc", start_time := 0, last_activity := 0 } none
      [("abc", FileContent.malformed)] 0
      (Message.resultMessage (JVal.str "done") (JVal.num 1) (JVal.num 1)
        (JVal.bool false) (JVal.num 1) "xyz" JVal.null JVal.null JVal.null)
      FileContent.malformed rfl (by decide) (by decide) (by decide) rfl rfl rfl

/-! ## Claim C1 -/

theorem mem_keys_storeInsert (st : Store) (k : String) (c : FileContent) (a : String) :
    a ∈ (storeInsert st k c).map Prod.fst ↔ a ∈ st.map Prod.fst ∨ a = k := by
  induction st with
  | nil => simp [storeInsert]
  | cons p rest ih =>
    by_cases hp : p.1 = k
    · subst hp
      simp [storeInsert]
      tauto
    · simp [storeInsert, hp, ih]
      tauto

theorem nodup_keys_storeInsert (st : Store) (k : String) (c : FileContent)
    (h : (st.map Prod.fst).Nodup) : ((storeInsert st k c).map Prod.fst).Nodup := by
  induction st with
  | nil => simp [storeInsert]
  | cons p rest ih =>
    by_cases hp : p.1 = k
    · subst hp
      simpa [storeInsert] using h
    · obtain ⟨k', c'⟩ := p
      simp only [List.map_cons, List.nodup_cons] at h
      simp only [storeInsert, if_neg hp, List.map_cons, List.nodup_cons]
      refine ⟨fun hmem => ?_, ih h.2⟩
      rcases (mem_keys_storeInsert rest k c k').mp hmem with hmem' | hes
      · exact h.1 hmem'
      · exact hp hes

/-- C1 counterexample: a rename from `abc` to `xyz` where the prior
history contains an assistant message with a tool-result block carrying
content.  The rename machinery works (old key gone, new key present,
current id updated), but `load` of the new key does not return history
H plus the message: the tool-result content came back null because the
serialization omits it, so the claim's load-phrased history equality
fails at this concrete input. -/
theorem C1_counterexample :
    (handleMessagePersistence (fun i => i) "/w" noFaults
        ⟨some "abc",
         some { session_id := "abc", start_time := 0, last_activity := 0,
                conversation_history :=
                  [Message.assistantMessage
                    [ContentBlock.toolResultBlock (JVal.str "t1") (JVal.str "out") JVal.null],
                   Message.userMessage (JVal.str "q")],
                working_directory := "/w", options := none },
         none, [], 0⟩
        (Message.resultMessage (JVal.str "done") (JVal.num 1) (JVal.num 1)
          (JVal.bool false) (JVal.num 1) "xyz" JVal.null JVal.null JVal.null)).2 =
      Except.ok
        ⟨some "xyz",
         some { session_id := "xyz", start_time := 0, last_activity := 2,
                conversation_history :=
                  [Message.assistantMessage
                    [ContentBlock.toolResultBlock (JVal.str "t1") (JVal.str "out") JVal.null],
                   Message.userMessage (JVal.str "q"),
                   Message.resultMessage (JVal.str "done") (JVal.num 1) (JVal.num 1)
                     (JVal.bool false) (JVal.num 1) "xyz" JVal.null JVal.null JVal.null],
                working_directory := "/w", options := none },
         none,
         [("xyz", FileContent.json (to_dict
           { session_id := "xyz", start_time := 0, last_activity := 2,
             conversation_history :=
               [Message.assistantMessage
                 [ContentBlock.toolResultBlock (JVal.str "t1") (JVal.str "out") JVal.null],
                Message.userMessage (JVal.str "q"),
                Message.resultMessage (JVal.str "done") (JVal.num 1) (JVal.num 1)
                  (JVal.bool false) (JVal.num 1) "xyz" JVal.null JVal.null JVal.null],
             working_directory := "/w", options := none }))],
         3⟩ ∧
    load_session
        [("xyz", FileContent.json (to_dict
          { session_id := "xyz", start_time := 0, last_activity := 2,
            conversation_history :=
              [Message.assistantMessage
                [ContentBlock.toolResultBlock (JVal.str "t1") (JVal.str "out") JVal.null],
               Message.userMessage (JVal.str "q"),
               Message.resultMessage (JVal.str "done") (JVal.num 1) (JVal.num 1)
                 (JVal.bool false) (JVal.num 1) "xyz" JVal.null JVal.null JVal.null],
            working_directory := "/w", options := none }))] "xyz" =
      Except.ok (some
        { session_id := "xyz", start_time := 0, last_activity := 2,
          conversation_history :=
            [Message.assistantMessage
              [ContentBlock.toolResultBlock (JVal.str "t1") JVal.null JVal.null],
             Message.userMessage (JVal.str "q"),
             Message.resultMessage (JVal.str "done") (JVal.num 1) (JVal.num 1)
               (JVal.bool false) (JVal.num 1) "xyz" JVal.null JVal.null JVal.null],
          working_directory := "/w", options := none }) ∧
    [Message.assistantMessage
       [ContentBlock.toolResultBlock (JVal.str "t1") JVal.null JVal.null],
     Message.userMessage (JVal.str "q"),
     Message.resultMessage (JVal.str "done") (JVal.num 1) (JVal.num 1)
       (JVal.bool false) (JVal.num 1) "xyz" JVal.null JVal.null JVal.null] ≠
      [Message.assistantMessage
         [ContentBlock.toolResultBlock (JVal.str "t1") (JVal.str "out") JVal.null],
       Message.userMessage (JVal.str "q")] ++
        [Message.resultMessage (JVal.str "done") (JVal.num 1) (JVal.num 1)
          (JVal.bool false) (JVal.num 1) "xyz" JVal.null JVal.null JVal.null] := by
  refine ⟨rfl, ?_, ?_⟩
  · have h := from_dict_to_dict
      { session_id := "xyz", start_time := 0, last_activity := 2,
        conversation_history :=
          [Message.assistantMessage
            [ContentBlock.toolResultBlock (JVal.str "t1") (JVal.str "out") JVal.null],
           Message.userMessage (JVal.str "q"),
           Message.resultMessage (JVal.str "done") (JVal.num 1) (JVal.num 1)
             (JVal.bool false) (JVal.num 1) "xyz" JVal.null JVal.null JVal.null],
        working_directory := "/w", options := none }
    simp [load_session, storeLookup, h, normSession, normMessage, normBlock, normOptions]
  · intro h
    simp at h

/-- C1 as amended: for a reconciler with current id A, a live record R
(non-empty history H) and a message carrying a different truthy id B,
`on_message` renames: afterwards the current id is B, the in-memory
record has `session_id = B` and history exactly H plus the triggering
message, `load(A)` is absent, and `load(B)` returns a record with
`session_id = B` whose history is H plus the message up to the
serialization normalization of C4 (each tool-result block's content
comes back null); it is exactly H plus the message whenever no
tool-result content occurs. -/
theorem C1_rename_preserves_history (clock : Nat → Nat) (cwd : String)
    (a b : String) (R : SessionData) (opts : Option ClaudeCodeOptions) (st : Store)
    (tick : Nat) (m : Message)
    (hex : extractSessionId m = some b) (hb : b ≠ "") (hab : a ≠ b) (ha : a ≠ "")
    (hRid : R.session_id = a) (hne : R.conversation_history ≠ [])
    (hnd : (st.map Prod.fst).Nodup) :
    ∃ d2 st',
      handleMessagePersistence clock cwd noFaults ⟨some a, some R, opts, st, tick⟩ m =
        ([StoreOp.save b, StoreOp.delete a, StoreOp.save b],
         .ok ⟨some b, some d2, opts, st', tick + 3⟩) ∧
      d2.session_id = b ∧
      d2.conversation_history = R.conversation_history ++ [m] ∧
      load_session st' b = .ok (some (normSession d2)) ∧
      (normSession d2).session_id = b ∧
      (normSession d2).conversation_history =
        (R.conversation_history ++ [m]).map normMessage ∧
      load_session st' a = .ok none := by
  have hr := reconcile_rename_eq clock cwd noFaults a b R opts st tick m hex hb hab
  have hsave : save_session noFaults st { R with session_id := b, last_activity := clock tick } =
      .ok (storeInsert st b (FileContent.json (to_dict { R with session_id := b, last_activity := clock tick }))) := rfl
  by_cases hEx : (storeLookup (storeInsert st b (FileContent.json (to_dict { R with session_id := b, last_activity := clock tick }))) a).isSome = true
  · have hdel : delete_session noFaults (storeInsert st b (FileContent.json (to_dict { R with session_id := b, last_activity := clock tick }))) a =
        .ok ((storeErase (storeInsert st b (FileContent.json (to_dict { R with session_id := b, last_activity := clock tick }))) a), true) := by
      simp [delete_session, hEx, noFaults]
    have hrec : reconcileSession clock cwd noFaults ⟨some a, some R, opts, st, tick⟩ m =
        ([StoreOp.save b, StoreOp.delete a],
         .ok ⟨some b, some { R with session_id := b, last_activity := clock tick }, opts,
              (storeErase (storeInsert st b (FileContent.json (to_dict { R with session_id := b, last_activity := clock tick }))) a), tick + 1⟩) := by
      rw [hr, hsave]
      simp [ha, hdel]
    have hha := handle_of_reconcile_some clock cwd noFaults _ m
      [StoreOp.save b, StoreOp.delete a] (some b) { R with session_id := b, last_activity := clock tick } opts
      (storeErase (storeInsert st b (FileContent.json (to_dict { R with session_id := b, last_activity := clock tick }))) a) (tick + 1) hrec
    refine ⟨{ session_id := b, start_time := R.start_time, last_activity := clock (tick + 2), conversation_history := R.conversation_history ++ [m], working_directory := R.working_directory, options := R.options },
      storeInsert (storeErase (storeInsert st b (FileContent.json (to_dict { R with session_id := b, last_activity := clock tick }))) a) b
        (FileContent.json (to_dict { session_id := b, start_time := R.start_time, last_activity := clock (tick + 2), conversation_history := R.conversation_history ++ [m], working_directory := R.working_directory, options := R.options })), ?_, rfl, rfl, ?_, rfl, rfl, ?_⟩
    · rw [hha]
      rfl
    · simp [load_session, storeLookup_insert_self, from_dict_to_dict]
    · have hla : storeLookup (storeInsert (storeErase (storeInsert st b (FileContent.json (to_dict { R with session_id := b, last_activity := clock tick }))) a) b
          (FileContent.json (to_dict { session_id := b, start_time := R.start_time, last_activity := clock (tick + 2), conversation_history := R.conversation_history ++ [m], working_directory := R.working_directory, options := R.options }))) a = none := by
        rw [storeLookup_insert_ne _ _ _ _ hab]
        exact storeLookup_erase_self _ _ (nodup_keys_storeInsert st b _ hnd)
      simp [load_session, hla]
  · have hdel : delete_session noFaults (storeInsert st b (FileContent.json (to_dict { R with session_id := b, last_activity := clock tick }))) a =
        .ok ((storeInsert st b (FileContent.json (to_dict { R with session_id := b, last_activity := clock tick }))), false) := by
      simp [delete_session, hEx]
    have hrec : reconcileSession clock cwd noFaults ⟨some a, some R, opts, st, tick⟩ m =
        ([StoreOp.save b, StoreOp.delete a],
         .ok ⟨some b, some { R with session_id := b, last_activity := clock tick }, opts,
              (storeInsert st b (FileContent.json (to_dict { R with session_id := b, last_activity := clock tick }))), tick + 1⟩) := by
      rw [hr, hsave]
      simp [ha, hdel]
    have hha := handle_of_reconcile_some clock cwd noFaults _ m
      [StoreOp.save b, StoreOp.delete a] (some b) { R with session_id := b, last_activity := clock tick } opts
      (storeInsert st b (FileContent.json (to_dict { R with session_id := b, last_activity := clock tick }))) (tick + 1) hrec
    have hnolook : storeLookup (storeInsert st b (FileContent.json (to_dict { R with session_id := b, last_activity := clock tick }))) a = none := by
      cases hcase : storeLookup (storeInsert st b (FileContent.json (to_dict { R with session_id := b, last_activity := clock tick }))) a with
      | none => rfl
      | some c => exact absurd (by rw [hcase]; rfl) hEx
    refine ⟨{ session_id := b, start_time := R.start_time, last_activity := clock (tick + 2), conversation_history := R.conversation_history ++ [m], working_directory := R.working_directory, options := R.options },
      storeInsert (storeInsert st b (FileContent.json (to_dict { R with session_id := b, last_activity := clock tick }))) b
        (FileContent.json (to_dict { session_id := b, start_time := R.start_time, last_activity := clock (tick + 2), conversation_history := R.conversation_history ++ [m], working_directory := R.working_directory, options := R.options })), ?_, rfl, rfl, ?_, rfl, rfl, ?_⟩
    · rw [hha]
      rfl
    · simp [load_session, storeLookup_insert_self, from_dict_to_dict]
    · have hla : storeLookup (storeInsert (storeInsert st b (FileContent.json (to_dict { R with session_id := b, last_activity := clock tick }))) b
          (FileContent.json (to_dict { session_id := b, start_time := R.start_time, last_activity := clock (tick + 2), conversation_history := R.conversation_history ++ [m], working_directory := R.working_directory, options := R.options }))) a = none := by
        rw [storeLookup_insert_ne _ _ _ _ hab]
        exact hnolook
      simp [load_session, hla]

/-- C1 witness: a concrete rename (record under `abc` with two prior
messages, message carrying `xyz`): the operation trace is save-new,
delete-old, save-new, and in the resulting state the old key `abc`
loads as absent while the current id is `xyz`. -/
theorem C1_witness :
    (handleMessagePersistence (fun i => i) "/w" noFaults
        ⟨some "abc",
         some { session_id := "abc", start_time := 0, last_activity := 0,
                conversation_history := [Message.userMessage (JVal.str "hi"),
                                         Message.userMessage (JVal.str "there")],
                working_directory := "/w", options := none },
         none, [], 0⟩
        (Message.resultMessage (JVal.str "done") (JVal.num 1) (JVal.num 1)
          (JVal.bool false) (JVal.num 1) "xyz" JVal.null JVal.null JVal.null)).1 =
      [StoreOp.save "xyz", StoreOp.delete "abc", StoreOp.save "xyz"] ∧
    (match (handleMessagePersistence (fun i => i) "/w" noFaults
        ⟨some "abc",
         some { session_id := "abc", start_time := 0, last_activity := 0,
                conversation_history := [Message.userMessage (JVal.str "hi"),
                                         Message.userMessage (JVal.str "there")],
                working_directory := "/w", options := none },
         none, [], 0⟩
        (Message.resultMessage (JVal.str "done") (JVal.num 1) (JVal.num 1)
          (JVal.bool false) (JVal.num 1) "xyz" JVal.null JVal.null JVal.null)).2 with
     | Except.ok s' => load_session s'.store "abc" = Except.ok none ∧
                       s'.current_session_id = some "xyz"
     | Except.error _ => False) := by
  obtain ⟨d2, st', heq, hsid, hhist, hloadb, hnsid, hnhist, hloada⟩ :=
    C1_rename_preserves_history (fun i => i) "/w" "abc" "xyz"
      { session_id := "abc", start_time := 0, last_activity := 0,
        conversation_history := [Message.userMessage (JVal.str "hi"),
                                 Message.userMessage (JVal.str "there")],
        working_directory := "/w", options := none }
      none [] 0
      (Message.resultMessage (JVal.str "done") (JVal.num 1) (JVal.num 1)
        (JVal.bool false) (JVal.num 1) "xyz" JVal.null JVal.null JVal.null)
      rfl (by decide) (by decide) (by decide) rfl (by simp) (by decide)
  constructor
  · rw [heq]
  · rw [heq]
    exact ⟨hloada, rfl⟩

/-! ## Claim C7: invariant machinery -/

theorem recInv_mono (clock : Nat → Nat) (hm : Monotone clock) (t t' : Nat)
    (h : t ≤ t') (d : SessionData) : RecInv clock t d → RecInv clock t' d :=
  fun ⟨h1, h2⟩ => ⟨h1, h2.trans (hm h)⟩

theorem storeTimeInv_mono (clock : Nat → Nat) (hm : Monotone clock) (t t' : Nat)
    (h : t ≤ t') (st : Store) : StoreTimeInv clock t st → StoreTimeInv clock t' st :=
  fun hst k c hl =>
    let ⟨d, hc, hd⟩ := hst k c hl
    ⟨d, hc, recInv_mono clock hm t t' h d hd⟩

theorem normSession_start_time (d : SessionData) :
    (normSession d).start_time = d.start_time := rfl

theorem normSession_last_activity (d : SessionData) :
    (normSession d).last_activity = d.last_activity := rfl

theorem storeLookup_insert_cases (st : Store) (k k' : String) (c c' : FileContent)
    (h : storeLookup (storeInsert st k c) k' = some c') :
    c' = c ∨ storeLookup st k' = some c' := by
  by_cases hk : k' = k
  · subst hk
    rw [storeLookup_insert_self] at h
    exact Or.inl (Option.some.inj h).symm
  · rw [storeLookup_insert_ne _ _ _ _ hk] at h
    exact Or.inr h

theorem storeTimeInv_insert (clock : Nat → Nat) (t : Nat) (st : Store)
    (d : SessionData) (k : String) (hst : StoreTimeInv clock t st)
    (hd : RecInv clock t d) :
    StoreTimeInv clock t (storeInsert st k (.json (to_dict d))) := by
  intro k' c' hl
  rcases storeLookup_insert_cases st k k' _ c' hl with h | h
  · exact ⟨d, h, hd⟩
  · exact hst k' c' h

theorem nodup_keys_storeErase (st : Store) (k : String)
    (h : (st.map Prod.fst).Nodup) : ((storeErase st k).map Prod.fst).Nodup := by
  rw [map_fst_storeErase]
  exact h.erase k

theorem storeLookup_erase_some (st : Store) (k k' : String) (c : FileContent)
    (hnd : (st.map Prod.fst).Nodup)
    (h : storeLookup (storeErase st k) k' = some c) :
    storeLookup st k' = some c := by
  by_cases hk : k' = k
  · subst hk
    rw [storeLookup_erase_self st k' hnd] at h
    cases h
  · rw [storeLookup_erase_ne st k k' hk] at h
    exact h

theorem storeTimeInv_erase (clock : Nat → Nat) (t : Nat) (st : Store) (k : String)
    (hnd : (st.map Prod.fst).Nodup) (hst : StoreTimeInv clock t st) :
    StoreTimeInv clock t (storeErase st k) :=
  fun k' c hl => hst k' c (storeLookup_erase_some st k k' c hnd hl)

theorem load_session_of_storeTimeInv (clock : Nat → Nat) (t : Nat) (st : Store)
    (h : StoreTimeInv clock t st) (k : String) :
    load_session st k = .ok none ∨
    ∃ d, load_session st k = .ok (some (normSession d)) ∧ RecInv clock t d := by
  cases hl : storeLookup st k with
  | none => exact Or.inl (by simp [load_session, hl])
  | some c =>
    obtain ⟨d, hc, hinv⟩ := h k c hl
    subst hc
    exact Or.inr ⟨d, by simp [load_session, hl, from_dict_to_dict], hinv⟩

theorem reconcile_empty_sid (clock : Nat → Nat) (cwd : String) (flt : Faults)
    (s : ClientCore) (m : Message) (hex : extractSessionId m = some "") :
    reconcileSession clock cwd flt s m = ([], .ok s) := by
  simp [reconcileSession, hex]

theorem reconcile_rename_noold_eq (clock : Nat → Nat) (cwd : String) (flt : Faults)
    (b : String) (R : SessionData) (opts : Option ClaudeCodeOptions) (st : Store)
    (tick : Nat) (m : Message) (hex : extractSessionId m = some b) (hb : b ≠ "") :
    reconcileSession clock cwd flt ⟨none, some R, opts, st, tick⟩ m =
      (match save_session flt st { R with session_id := b, last_activity := clock tick } with
       | .error e => ([], .error e)
       | .ok st1 =>
         ([StoreOp.save b],
          .ok ⟨some b, some { R with session_id := b, last_activity := clock tick },
               opts, st1, tick + 1⟩)) := by
  simp [reconcileSession, hex, hb, now]

theorem clearResume_fields (s : ClientCore) :
    (clearResume s).store = s.store ∧ (clearResume s).tick = s.tick ∧
    (clearResume s).session_data = none := by
  cases ho : s.options <;> simp [clearResume, ho]

theorem startOrResume_some_eq (s : ClientCore) (sid : String) (hsid : sid ≠ "") :
    startOrResumeSession s (some sid) =
      (match load_session s.store sid with
       | .error e => .error e
       | .ok none =>
         .ok { s with session_data := none,
                      options := some { s.options.getD ClaudeCodeOptions.mkDefault with
                                        resume := some sid } }
       | .ok (some d) =>
         .ok { s with session_data := some d, current_session_id := some sid,
                      options := some { s.options.getD ClaudeCodeOptions.mkDefault with
                                        resume := some sid } }) := by
  cases hl : load_session s.store sid with
  | error e => simp [startOrResumeSession, hsid, hl]
  | ok r =>
    cases r with
    | none => simp [startOrResumeSession, hsid, hl]
    | some d => simp [startOrResumeSession, hsid, hl]

theorem coreInv_reconcile (clock : Nat → Nat) (cwd : String) (hm : Monotone clock)
    (c? : Option String) (R? : Option SessionData) (opts : Option ClaudeCodeOptions)
    (st : Store) (tick : Nat) (m : Message) (tr : List StoreOp) (s1 : ClientCore)
    (hinv : CoreInv clock ⟨c?, R?, opts, st, tick⟩)
    (hp : reconcileSession clock cwd noFaults ⟨c?, R?, opts, st, tick⟩ m = (tr, .ok s1)) :
    CoreInv clock s1 ∧
    (∀ d, R? = some d →
      ∃ d1, s1.session_data = some d1 ∧ d.last_activity ≤ d1.last_activity) := by
  obtain ⟨hnd, hlive, hst⟩ := hinv
  cases hex : extractSessionId m with
  | none =>
    rw [reconcile_no_sid clock cwd noFaults _ m hex] at hp
    injection hp with htr hok
    injection hok with hs
    subst htr
    subst hs
    exact ⟨⟨hnd, hlive, hst⟩, fun d hd => ⟨d, hd, le_refl _⟩⟩
  | some b =>
    by_cases hb : b = ""
    · subst hb
      rw [reconcile_empty_sid clock cwd noFaults _ m hex] at hp
      injection hp with htr hok
      injection hok with hs
      subst htr
      subst hs
      exact ⟨⟨hnd, hlive, hst⟩, fun d hd => ⟨d, hd, le_refl _⟩⟩
    · by_cases hcur : c? = some b
      · rw [reconcile_same_sid clock cwd noFaults _ m b hex hb hcur] at hp
        injection hp with htr hok
        injection hok with hs
        subst htr
        subst hs
        exact ⟨⟨hnd, hlive, hst⟩, fun d hd => ⟨d, hd, le_refl _⟩⟩
      · cases R? with
        | none =>
          rw [reconcile_fresh_eq clock cwd noFaults c? opts st tick m b hex hb hcur] at hp
          rcases load_session_of_storeTimeInv clock tick st hst b with hl | ⟨d₀, hl, hinv₀⟩
          · rw [hl] at hp
            have hp2 : (([] : List StoreOp),
                Except.ok (⟨some b,
                  some (synthesizeRecord b (clock tick) (clock (tick + 1)) cwd opts),
                  opts, st, tick + 2⟩ : ClientCore)) = (tr, .ok s1) := hp
            injection hp2 with htr hok
            injection hok with hs
            subst htr
            subst hs
            refine ⟨⟨hnd, ?_, storeTimeInv_mono clock hm tick (tick + 2)
              (Nat.le_add_right tick 2) st hst⟩, ?_⟩
            · intro d hd
              injection hd with hd'
              subst hd'
              exact ⟨hm (Nat.le_succ tick), hm (Nat.succ_le_succ (Nat.le_succ tick))⟩
            · intro d hd
              cases hd
          · rw [hl] at hp
            have hp2 : (([] : List StoreOp),
                Except.ok (⟨some b, some (normSession d₀), opts, st, tick⟩ :
                  ClientCore)) = (tr, .ok s1) := hp
            injection hp2 with htr hok
            injection hok with hs
            subst htr
            subst hs
            refine ⟨⟨hnd, ?_, hst⟩, ?_⟩
            · intro d hd
              injection hd with hd'
              subst hd'
              exact hinv₀
            · intro d hd
              cases hd
        | some R =>
          have hR := hlive R rfl
          have hd1inv : RecInv clock (tick + 1)
              ({ R with session_id := b, last_activity := clock tick } : SessionData) :=
            ⟨hR.1.trans hR.2, hm (Nat.le_succ tick)⟩
          cases c? with
          | none =>
            rw [reconcile_rename_noold_eq clock cwd noFaults b R opts st tick m hex hb] at hp
            have hp2 : ([StoreOp.save b],
                Except.ok (⟨some b, some { R with session_id := b, last_activity := clock tick }, opts,
                  (storeInsert st b (FileContent.json (to_dict { R with session_id := b, last_activity := clock tick }))), tick + 1⟩ : ClientCore)) = (tr, .ok s1) := hp
            injection hp2 with htr hok
            injection hok with hs
            subst htr
            subst hs
            refine ⟨⟨nodup_keys_storeInsert st b _ hnd, ?_, ?_⟩, ?_⟩
            · intro d hd
              injection hd with hd'
              subst hd'
              exact hd1inv
            · exact storeTimeInv_insert clock (tick + 1) st _ b
                (storeTimeInv_mono clock hm tick (tick + 1) (Nat.le_succ tick) st hst)
                hd1inv
            · intro d hd
              injection hd with hd'
              subst hd'
              exact ⟨{ R with session_id := b, last_activity := clock tick }, rfl, hR.2⟩
          | some a =>
            have hab : a ≠ b := fun h => hcur (by rw [h])
            rw [reconcile_rename_eq clock cwd noFaults a b R opts st tick m hex hb hab] at hp
            by_cases ha : a = ""
            · subst ha
              have hp2 : ([StoreOp.save b],
                  Except.ok (⟨some b, some { R with session_id := b, last_activity := clock tick }, opts,
                    (storeInsert st b (FileContent.json (to_dict { R with session_id := b, last_activity := clock tick }))), tick + 1⟩ : ClientCore)) = (tr, .ok s1) := hp
              injection hp2 with htr hok
              injection hok with hs
              subst htr
              subst hs
              refine ⟨⟨nodup_keys_storeInsert st b _ hnd, ?_, ?_⟩, ?_⟩
              · intro d hd
                injection hd with hd'
                subst hd'
                exact hd1inv
              · exact storeTimeInv_insert clock (tick + 1) st _ b
                  (storeTimeInv_mono clock hm tick (tick + 1) (Nat.le_succ tick) st hst)
                  hd1inv
              · intro d hd
                injection hd with hd'
                subst hd'
                exact ⟨{ R with session_id := b, last_activity := clock tick }, rfl, hR.2⟩
            · have hp2 : (if a ≠ "" then
                  (match delete_session noFaults (storeInsert st b (FileContent.json (to_dict { R with session_id := b, last_activity := clock tick }))) a with
                   | Except.error e => ([StoreOp.save b], Except.error e)
                   | Except.ok (st2, _) =>
                     ([StoreOp.save b, StoreOp.delete a],
                      Except.ok (⟨some b, some { R with session_id := b, last_activity := clock tick }, opts, st2, tick + 1⟩ : ClientCore)))
                  else
                    ([StoreOp.save b],
                     Except.ok (⟨some b, some { R with session_id := b, last_activity := clock tick }, opts,
                       (storeInsert st b (FileContent.json (to_dict { R with session_id := b, last_activity := clock tick }))), tick + 1⟩ : ClientCore))) = (tr, .ok s1) := hp
              rw [if_pos ha] at hp2
              have hndins := nodup_keys_storeInsert st b (FileContent.json (to_dict { R with session_id := b, last_activity := clock tick })) hnd
              have hstins := storeTimeInv_insert clock (tick + 1) st _ b
                (storeTimeInv_mono clock hm tick (tick + 1) (Nat.le_succ tick) st hst)
                hd1inv
              by_cases hEx : (storeLookup (storeInsert st b (FileContent.json (to_dict { R with session_id := b, last_activity := clock tick }))) a).isSome = true
              · have hdel : delete_session noFaults (storeInsert st b (FileContent.json (to_dict { R with session_id := b, last_activity := clock tick }))) a =
                    .ok (storeErase (storeInsert st b (FileContent.json (to_dict { R with session_id := b, last_activity := clock tick }))) a, true) := by
                  simp [delete_session, hEx, noFaults]
                rw [hdel] at hp2
                have hp3 : ([StoreOp.save b, StoreOp.delete a],
                    Except.ok (⟨some b, some { R with session_id := b, last_activity := clock tick }, opts,
                      storeErase (storeInsert st b (FileContent.json (to_dict { R with session_id := b, last_activity := clock tick }))) a, tick + 1⟩ : ClientCore)) = (tr, .ok s1) := hp2
                injection hp3 with htr hok
                injection hok with hs
                subst htr
                subst hs
                refine ⟨⟨nodup_keys_storeErase _ a hndins, ?_, ?_⟩, ?_⟩
                · intro d hd
                  injection hd with hd'
                  subst hd'
                  exact hd1inv
                · exact storeTimeInv_erase clock (tick + 1) _ a hndins hstins
                · intro d hd
                  injection hd with hd'
                  subst hd'
                  exact ⟨{ R with session_id := b, last_activity := clock tick }, rfl, hR.2⟩
              · have hdel : delete_session noFaults (storeInsert st b (FileContent.json (to_dict { R with session_id := b, last_activity := clock tick }))) a =
                    .ok ((storeInsert st b (FileContent.json (to_dict { R with session_id := b, last_activity := clock tick }))), false) := by
                  simp [delete_session, hEx]
                rw [hdel] at hp2
                have hp3 : ([StoreOp.save b, StoreOp.delete a],
                    Except.ok (⟨some b, some { R with session_id := b, last_activity := clock tick }, opts,
                      (storeInsert st b (FileContent.json (to_dict { R with session_id := b, last_activity := clock tick }))), tick + 1⟩ : ClientCore)) = (tr, .ok s1) := hp2
                injection hp3 with htr hok
                injection hok with hs
                subst htr
                subst hs
                refine ⟨⟨hndins, ?_, hstins⟩, ?_⟩
                · intro d hd
                  injection hd with hd'
                  subst hd'
                  exact hd1inv
                · intro d hd
                  injection hd with hd'
                  subst hd'
                  exact ⟨{ R with session_id := b, last_activity := clock tick }, rfl, hR.2⟩

theorem coreInv_handle (clock : Nat → Nat) (cwd : String) (hm : Monotone clock)
    (s s' : ClientCore) (m : Message) (hinv : CoreInv clock s)
    (hok : (handleMessagePersistence clock cwd noFaults s m).2 = .ok s') :
    CoreInv clock s' ∧
    (∀ d d', s.session_data = some d → s'.session_data = some d' →
      d.last_activity ≤ d'.last_activity) := by
  obtain ⟨c?, R?, opts, st, tick⟩ := s
  rcases hp : reconcileSession clock cwd noFaults ⟨c?, R?, opts, st, tick⟩ m with ⟨tr, r⟩
  cases r with
  | error e =>
    rw [handle_of_reconcile_error clock cwd noFaults _ m tr e hp] at hok
    exact Except.noConfusion hok
  | ok s1 =>
    obtain ⟨hinv1, hmon1⟩ :=
      coreInv_reconcile clock cwd hm c? R? opts st tick m tr s1 hinv hp
    obtain ⟨c1, R1, o1, st1, t1⟩ := s1
    cases R1 with
    | none =>
      rw [handle_of_reconcile_none clock cwd noFaults _ m tr c1 o1 st1 t1 hp] at hok
      have hok2 : Except.ok (⟨c1, none, o1, st1, t1⟩ : ClientCore) = .ok s' := hok
      obtain hs := Except.ok.inj hok2
      subst hs
      refine ⟨hinv1, ?_⟩
      intro d d' hd hd'
      obtain ⟨dmid, hdmid, _⟩ := hmon1 d hd
      exact Option.noConfusion hdmid
    | some d1 =>
      rw [handle_of_reconcile_some clock cwd noFaults _ m tr c1 d1 o1 st1 t1 hp] at hok
      have hok2 : Except.ok (⟨c1, some { d1 with conversation_history := d1.conversation_history ++ [m], last_activity := clock (t1 + 1) }, o1,
          storeInsert st1 d1.session_id (.json (to_dict { d1 with conversation_history := d1.conversation_history ++ [m], last_activity := clock (t1 + 1) })),
          t1 + 2⟩ : ClientCore) = .ok s' := hok
      obtain hs := Except.ok.inj hok2
      subst hs
      obtain ⟨hnd1, hlive1, hst1⟩ := hinv1
      have hR1 := hlive1 d1 rfl
      have hd2inv : RecInv clock (t1 + 2) ({ d1 with conversation_history := d1.conversation_history ++ [m], last_activity := clock (t1 + 1) } : SessionData) :=
        ⟨hR1.1.trans (hR1.2.trans (hm (Nat.le_succ t1))),
         hm (Nat.succ_le_succ (Nat.le_succ t1))⟩
      refine ⟨⟨nodup_keys_storeInsert st1 d1.session_id _ hnd1, ?_, ?_⟩, ?_⟩
      · intro d hd
        injection hd with hd'
        subst hd'
        exact hd2inv
      · exact storeTimeInv_insert clock (t1 + 2) st1 _ d1.session_id
          (storeTimeInv_mono clock hm t1 (t1 + 2) (Nat.le_add_right t1 2) st1 hst1)
          hd2inv
      · intro d d' hd hd'
        obtain ⟨dmid, hdmid, hlemid⟩ := hmon1 d hd
        injection hdmid with hmid
        subst hmid
        injection hd' with hd''
        subst hd''
        exact hlemid.trans (hR1.2.trans (hm (Nat.le_succ t1)))

theorem coreInv_disconnect (clock : Nat → Nat) (hm : Monotone clock)
    (s s' : ClientCore) (hinv : CoreInv clock s)
    (hok : (disconnect clock noFaults s).2 = .ok s') :
    CoreInv clock s' ∧
    (∀ d d', s.session_data = some d → s'.session_data = some d' →
      d.last_activity ≤ d'.last_activity) := by
  obtain ⟨c?, R?, opts, st, tick⟩ := s
  obtain ⟨hnd, hlive, hst⟩ := hinv
  cases R? with
  | none =>
    have hok2 : Except.ok (⟨c?, none, opts, st, tick⟩ : ClientCore) = .ok s' := hok
    obtain hs := Except.ok.inj hok2
    subst hs
    exact ⟨⟨hnd, hlive, hst⟩, fun d d' hd hd' => Option.noConfusion hd⟩
  | some d =>
    have hok2 : Except.ok (⟨c?, some { d with last_activity := clock tick }, opts,
        storeInsert st d.session_id
          (.json (to_dict { d with last_activity := clock tick })),
        tick + 1⟩ : ClientCore) = .ok s' := hok
    obtain hs := Except.ok.inj hok2
    subst hs
    have hR := hlive d rfl
    have hdinv : RecInv clock (tick + 1)
        ({ d with last_activity := clock tick } : SessionData) :=
      ⟨hR.1.trans hR.2, hm (Nat.le_succ tick)⟩
    refine ⟨⟨nodup_keys_storeInsert st d.session_id _ hnd, ?_, ?_⟩, ?_⟩
    · intro d' hd'
      injection hd' with hd''
      subst hd''
      exact hdinv
    · exact storeTimeInv_insert clock (tick + 1) st _ d.session_id
        (storeTimeInv_mono clock hm tick (tick + 1) (Nat.le_succ tick) st hst) hdinv
    · intro da d' hda hd'
      injection hda with hda'
      subst hda'
      injection hd' with hd''
      subst hd''
      exact hR.2

theorem coreInv_resume (clock : Nat → Nat) (hm : Monotone clock)
    (s s' : ClientCore) (sid? : Option String) (hinv : CoreInv clock s)
    (hok : startOrResumeSession s sid? = .ok s') : CoreInv clock s' := by
  obtain ⟨hnd, hlive, hst⟩ := hinv
  obtain ⟨hc1, hc2, hc3⟩ := clearResume_fields s
  cases sid? with
  | none =>
    have hok2 : Except.ok (clearResume s) = .ok s' := hok
    obtain hs := Except.ok.inj hok2
    subst hs
    refine ⟨?_, ?_, ?_⟩
    · rw [hc1]; exact hnd
    · intro d hd
      rw [hc3] at hd
      exact Option.noConfusion hd
    · rw [hc1, hc2]; exact hst
  | some sid =>
    by_cases hsid : sid = ""
    · subst hsid
      have hok2 : Except.ok (clearResume s) = .ok s' := hok
      obtain hs := Except.ok.inj hok2
      subst hs
      refine ⟨?_, ?_, ?_⟩
      · rw [hc1]; exact hnd
      · intro d hd
        rw [hc3] at hd
        exact Option.noConfusion hd
      · rw [hc1, hc2]; exact hst
    · rw [startOrResume_some_eq s sid hsid] at hok
      rcases load_session_of_storeTimeInv clock s.tick s.store hst sid
        with hl | ⟨d₀, hl, hinv₀⟩
      · rw [hl] at hok
        have hok2 : Except.ok
            ({ s with
               session_data := none
               options := some { s.options.getD ClaudeCodeOptions.mkDefault with
                                 resume := some sid } } : ClientCore) = .ok s' := hok
        obtain hs := Except.ok.inj hok2
        subst hs
        exact ⟨hnd, fun d hd => Option.noConfusion hd, hst⟩
      · rw [hl] at hok
        have hok2 : Except.ok
            ({ s with
               session_data := some (normSession d₀)
               current_session_id := some sid
               options := some { s.options.getD ClaudeCodeOptions.mkDefault with
                                 resume := some sid } } : ClientCore) = .ok s' := hok
        obtain hs := Except.ok.inj hok2
        subst hs
        refine ⟨hnd, ?_, hst⟩
        intro d hd
        injection hd with hd'
        subst hd'
        exact hinv₀

theorem reach_coreInv (clock : Nat → Nat) (cwd : String) (hm : Monotone clock)
    (s : ClientCore) (h : Reach clock cwd s) : CoreInv clock s := by
  induction h with
  | init opts =>
    refine ⟨by simp, fun d hd => Option.noConfusion hd, fun k c hl => ?_⟩
    simp [storeLookup] at hl
  | step s s' hr hstep ih =>
    cases hstep
    case msg =>
      rename_i m hok
      exact (coreInv_handle clock cwd hm s s' m ih hok).1
    case fin =>
      rename_i hok
      exact (coreInv_disconnect clock hm s s' ih hok).1
    case resume =>
      rename_i sid? hok
      exact coreInv_resume clock hm s s' sid? ih hok
    case del =>
      rename_i sid st' bb hdel hs'
      subst hs'
      obtain ⟨hnd, hlive, hst⟩ := ih
      by_cases hEx : (storeLookup s.store sid).isSome = true
      · have hd : delete_session noFaults s.store sid =
            .ok (storeErase s.store sid, true) := by
          simp [delete_session, hEx, noFaults]
        rw [hd] at hdel
        injection hdel with hpair
        injection hpair with h1 h2
        subst h1
        exact ⟨nodup_keys_storeErase s.store sid hnd, hlive,
               storeTimeInv_erase clock s.tick s.store sid hnd hst⟩
      · have hd : delete_session noFaults s.store sid = .ok (s.store, false) := by
          simp [delete_session, hEx]
        rw [hd] at hdel
        injection hdel with hpair
        injection hpair with h1 h2
        subst h1
        exact ⟨hnd, hlive, hst⟩
    case restart =>
      rename_i opts hs'
      subst hs'
      exact ⟨ih.1, fun d hd => Option.noConfusion hd, ih.2.2⟩

/-- C7: over every state reachable through the public operations
(message persistence, finalize, resume, explicit delete, restart
against the same store) under a monotone clock, the live record and
every record loadable from the store satisfy
`start_time ≤ last_activity`; and across a further message-persistence
or finalize step on the same live record, `last_activity` never
decreases. -/
theorem C7_timestamp_invariant (clock : Nat → Nat) (cwd : String)
    (hm : Monotone clock) (s : ClientCore) (hr : Reach clock cwd s) :
    (∀ d, s.session_data = some d → d.start_time ≤ d.last_activity) ∧
    (∀ k d, load_session s.store k = Except.ok (some d) →
      d.start_time ≤ d.last_activity) ∧
    (∀ m s' d d', (handleMessagePersistence clock cwd noFaults s m).2 = .ok s' →
      s.session_data = some d → s'.session_data = some d' →
      d.last_activity ≤ d'.last_activity) ∧
    (∀ s' d d', (disconnect clock noFaults s).2 = .ok s' →
      s.session_data = some d → s'.session_data = some d' →
      d.last_activity ≤ d'.last_activity) := by
  have hinv := reach_coreInv clock cwd hm s hr
  obtain ⟨hnd, hlive, hst⟩ := hinv
  refine ⟨fun d hd => (hlive d hd).1, ?_, ?_, ?_⟩
  · intro k d hl
    rcases load_session_of_storeTimeInv clock s.tick s.store hst k
      with h | ⟨d₀, h, hinv₀⟩
    · rw [h] at hl
      injection hl with hl'
      exact Option.noConfusion hl'
    · rw [h] at hl
      injection hl with hl'
      injection hl' with hl''
      subst hl''
      exact hinv₀.1
  · intro m s' d d' hok hd hd'
    exact (coreInv_handle clock cwd hm s s' m ⟨hnd, hlive, hst⟩ hok).2 d d' hd hd'
  · intro s' d d' hok hd hd'
    exact (coreInv_disconnect clock hm s s' ⟨hnd, hlive, hst⟩ hok).2 d d' hd hd'

/-- C7 witness: the state reached from a fresh client by one message
carrying the fresh id `abc` under the identity clock stream; its live
record (start 0, last activity 3) satisfies the invariant by the
theorem. -/
theorem C7_witness :
    ({ session_id := "abc", start_time := 0, last_activity := 3,
       conversation_history :=
         [Message.resultMessage (JVal.str "init") (JVal.num 1) (JVal.num 1)
           (JVal.bool false) (JVal.num 1) "abc" JVal.null JVal.null JVal.null],
       working_directory := "/w", options := none } : SessionData).start_time ≤
    ({ session_id := "abc", start_time := 0, last_activity := 3,
       conversation_history :=
         [Message.resultMessage (JVal.str "init") (JVal.num 1) (JVal.num 1)
           (JVal.bool false) (JVal.num 1) "abc" JVal.null JVal.null JVal.null],
       working_directory := "/w", options := none } : SessionData).last_activity := by
  have hstep : (handleMessagePersistence (fun i => i) "/w" noFaults
      ⟨none, none, none, [], 0⟩
      (Message.resultMessage (JVal.str "init") (JVal.num 1) (JVal.num 1)
        (JVal.bool false) (JVal.num 1) "abc" JVal.null JVal.null JVal.null)).2 =
      .ok ⟨some "abc",
           some { session_id := "abc", start_time := 0, last_activity := 3,
                  conversation_history :=
                    [Message.resultMessage (JVal.str "init") (JVal.num 1) (JVal.num 1)
                      (JVal.bool false) (JVal.num 1) "abc" JVal.null JVal.null JVal.null],
                  working_directory := "/w", options := none },
           none,
           [("abc", FileContent.json (to_dict
             { session_id := "abc", start_time := 0, last_activity := 3,
               conversation_history :=
                 [Message.resultMessage (JVal.str "init") (JVal.num 1) (JVal.num 1)
                   (JVal.bool false) (JVal.num 1) "abc" JVal.null JVal.null JVal.null],
               working_directory := "/w", options := none }))],
           4⟩ := rfl
  have hreach : Reach (fun i => i) "/w"
      ⟨some "abc",
       some { session_id := "abc", start_time := 0, last_activity := 3,
              conversation_history :=
                [Message.resultMessage (JVal.str "init") (JVal.num 1) (JVal.num 1)
                  (JVal.bool false) (JVal.num 1) "abc" JVal.null JVal.null JVal.null],
              working_directory := "/w", options := none },
       none,
       [("abc", FileContent.json (to_dict
         { session_id := "abc", start_time := 0, last_activity := 3,
           conversation_history :=
             [Message.resultMessage (JVal.str "init") (JVal.num 1) (JVal.num 1)
               (JVal.bool false) (JVal.num 1) "abc" JVal.null JVal.null JVal.null],
           working_directory := "/w", options := none }))],
       4⟩ :=
    Reach.step _ _ (Reach.init none) (Step.msg _ _ _ hstep)
  exact (C7_timestamp_invariant (fun i => i) "/w" (fun _ _ h => h) _ hreach).1 _ rfl
